import Mathlib

/-!
Shallow embedding of the stock-screener engine (`engine.ts` / `contract.ts`).

Modelling conventions:
* JavaScript numbers are modelled as `ℚ` (the engine only performs field
  arithmetic; `Math.sqrt` is kept abstract as an explicit function argument
  `sq : ℚ → ℚ` since square roots are irrational).
* `x.slice(-n)` is `lastN`, `Array.prototype.sort` (stable per the ES spec)
  is `List.insertionSort` with the comparator's reflexive-total relation.
* JS truthiness on optional numbers/strings/booleans (`x || d`) is made
  explicit through `qOr`, `qOptOr`, `sOr`, `bOptOr`.
* The impure `new Date()` used by the earnings check is an explicit
  argument `nowMs : ℚ`; ISO date strings are kept abstract for that check
  via an explicit day-number argument (nothing proved here depends on it).
* Fallible code (`validateParams`, `runEngine`) returns `Except String _`.
-/

set_option maxRecDepth 4000

instance decEqExcept {ε α : Type} [DecidableEq ε] [DecidableEq α] :
    DecidableEq (Except ε α) := fun x y =>
  match x, y with
  | .error e, .error f =>
    if h : e = f then isTrue (h ▸ rfl) else isFalse (fun c => h (Except.error.inj c))
  | .ok a, .ok b =>
    if h : a = b then isTrue (h ▸ rfl) else isFalse (fun c => h (Except.ok.inj c))
  | .error _, .ok _ => isFalse (fun c => Except.noConfusion c)
  | .ok _, .error _ => isFalse (fun c => Except.noConfusion c)

namespace Screener

/-- `"up" | "down" | "sideways"`. -/
inductive Trend
  | up
  | down
  | sideways
deriving DecidableEq, Repr

/-- `"20>50" | "50>200" | "20>200" | "none"`. -/
inductive MACross
  | c20_50
  | c50_200
  | c20_200
  | noCross
deriving DecidableEq, Repr

/-- `"swing_high_to_low" | "swing_low_to_high"`. -/
inductive FibReference
  | swing_high_to_low
  | swing_low_to_high
deriving DecidableEq, Repr

/-- `"38.2-50" | "50-61.8" | "38.2-61.8" | "extension-127" | "extension-161.8" | "*"`. -/
inductive FibZone
  | z38_50
  | z50_618
  | z38_618
  | ext127
  | ext1618
  | star
deriving DecidableEq, Repr

/-- The twelve `SetupReason` string literals of `contract.ts`. -/
inductive SetupReason
  | Breakout
  | Momentum
  | Pullback
  | FibPullback
  | Consolidation
  | Reversal
  | Reversal_Accumulation
  | Reversal_Distribution
  | BB_Lower_Bounce
  | BB_Upper_Reject
  | Stoch_Oversold_Reversal
  | Stoch_Overbought_Reversal
deriving DecidableEq, Repr

/-- Candlestick pattern labels; `nopat` is the `"none"` literal. -/
inductive CandlestickPattern
  | doji
  | hammer
  | long_lower_shadow
  | gravestone_doji
  | shooting_star
  | engulfing_bullish
  | engulfing_bearish
  | nopat
deriving DecidableEq, Repr

/-- `"sp500" | "dowjones" | "nasdaq100" | "russell2000"`. -/
inductive IndexName
  | sp500
  | dowjones
  | nasdaq100
  | russell2000
deriving DecidableEq, Repr

/-- `"daily" | "weekly" | "monthly"`. -/
inductive Timeframe
  | daily
  | weekly
  | monthly
deriving DecidableEq, Repr

/-- `"buyer" | "seller" | "neutral"`. -/
inductive VolumeShift
  | buyer
  | seller
  | neutral
deriving DecidableEq, Repr

/-- `"lower_bounce" | "upper_reject" | "middle"`. -/
inductive BBPosition
  | lower_bounce
  | upper_reject
  | middle
deriving DecidableEq, Repr

/-- `"oversold" | "overbought" | "neutral"`. -/
inductive StochPosition
  | oversold
  | overbought
  | neutral
deriving DecidableEq, Repr

/-- One OHLCV session (`Candle` in `contract.ts`). -/
structure Candle where
  t : String
  o : ℚ
  h : ℚ
  l : ℚ
  c : ℚ
  v : ℚ
deriving DecidableEq, Repr

/-- `TickerMeta` of `contract.ts`; optional fields are `Option`. -/
structure TickerMeta where
  ticker : String
  company : Option String := none
  sector : Option String := none
  industry : Option String := none
  marketCap : Option ℚ := none
  nextEarningsDate : Option String := none
  lastCompletedBar : Option String := none
deriving DecidableEq, Repr

/-- `ScreenerParams`; wildcards: `user_sector`/`user_industry` use the literal
string `"*"`, `trend_type` uses `none` for `"*"`, `fib_zone` has `star`. -/
structure ScreenerParams where
  user_sector : String
  user_industry : String
  market_cap_min : ℚ
  market_cap_max : ℚ
  rsi_min : ℚ
  rsi_max : ℚ
  stoch_k_min : ℚ
  stoch_k_max : ℚ
  trend_type : Option Trend
  trend_lookback : ℚ
  ma_cross : MACross
  sr_proximity_pct : ℚ
  adx_min : ℚ
  atr_lookback : ℚ
  fib_reference : FibReference
  fib_zone : FibZone
  max_results : ℚ
  as_of_date : String
  leo_mode_enabled : Bool
  index_filters : List IndexName
  min_price_leo : ℚ
  candlestick_patterns : List CandlestickPattern
  require_volume_shift : Bool
  bb_bounce_enabled : Bool
  stoch_oversold_threshold : ℚ
  stoch_overbought_threshold : ℚ
  earnings_warning_days : ℚ
  timeframe : Timeframe
deriving DecidableEq, Repr

/-- `DEFAULT_PARAMS` of `contract.ts`; the impure `new Date()` default for
`as_of_date` is an explicit argument. -/
def DEFAULT_PARAMS (todayStr : String) : ScreenerParams where
  user_sector := "*"
  user_industry := "*"
  market_cap_min := 2000000000
  market_cap_max := 10000000000000
  rsi_min := 0
  rsi_max := 100
  stoch_k_min := 0
  stoch_k_max := 100
  trend_type := none
  trend_lookback := 60
  ma_cross := .noCross
  sr_proximity_pct := 3
  adx_min := 0
  atr_lookback := 14
  fib_reference := .swing_low_to_high
  fib_zone := .star
  max_results := 50
  as_of_date := todayStr
  leo_mode_enabled := false
  index_filters := [.sp500, .dowjones, .nasdaq100]
  min_price_leo := 50
  candlestick_patterns := [.doji, .hammer, .long_lower_shadow]
  require_volume_shift := true
  bb_bounce_enabled := true
  stoch_oversold_threshold := 20
  stoch_overbought_threshold := 80
  earnings_warning_days := 30
  timeframe := .weekly

/-- The process-wide `FIXED_FILTERS` constant shape. -/
structure FixedFiltersT where
  minPrice : ℚ
  minAvgVol20 : ℚ
  minRelativeVol : ℚ
  minBars : ℕ
deriving DecidableEq, Repr

/-- `FIXED_FILTERS` literal of `contract.ts`. -/
def FIXED_FILTERS : FixedFiltersT where
  minPrice := 30
  minAvgVol20 := 1000000
  minRelativeVol := 1
  minBars := 250

/-- `assertFixedFilters`: throws unless the constant equals the known literal. -/
def assertFixedFilters : Except String Unit :=
  if FIXED_FILTERS = ⟨30, 1000000, 1, 250⟩ then Except.ok ()
  else Except.error "FIXED_FILTERS mismatch"

/-- `FVGZone`. `bull` is true for `"bullish"`. -/
structure FVGZone where
  bull : Bool
  topPrice : ℚ
  bottomPrice : ℚ
  midpoint : ℚ
  startDate : String
  endDate : String
  isFilled : Bool
deriving DecidableEq, Repr

/-- `SwingPoint`; `isHigh` is true for `"high"`. -/
structure SwingPoint where
  date : String
  price : ℚ
  isHigh : Bool
  strength : ℕ
deriving DecidableEq, Repr

/-- Price-target kinds (`"fvg" | "swing" | "imbalance" | "percentage"`). -/
inductive PTKind
  | fvg
  | swing
  | imbalance
  | percentage
deriving DecidableEq, Repr

/-- `PriceTarget`. -/
structure PriceTarget where
  kind : PTKind
  price : ℚ
  description : String
  confidence : ℚ
deriving DecidableEq, Repr

/-- `VolumeAnalysis`. -/
structure VolumeAnalysis where
  shift : VolumeShift
  strength : ℚ
  buyerVolume : ℚ
  sellerVolume : ℚ
deriving DecidableEq, Repr

/-- `Indicators`: every field independently nullable, absent by default. -/
structure Indicators where
  sma20 : Option ℚ := none
  sma50 : Option ℚ := none
  sma200 : Option ℚ := none
  rsi14 : Option ℚ := none
  stochK : Option ℚ := none
  atrv : Option ℚ := none
  adx14 : Option ℚ := none
  avgVol20 : Option ℚ := none
  relVol : Option ℚ := none
  hh20 : Option ℚ := none
  ll20 : Option ℚ := none
  bbWidth : Option ℚ := none
  trend : Option Trend := none
  srDistancePct : Option ℚ := none
  fibHit : Option Bool := none
  reactionBullish : Option Bool := none
  bbUpper : Option ℚ := none
  bbLower : Option ℚ := none
  bbMiddle : Option ℚ := none
  bbPercentB : Option ℚ := none
  stochD : Option ℚ := none
  candlestickPattern : Option CandlestickPattern := none
  volumeShift : Option VolumeShift := none
  volumeShiftStrength : Option ℚ := none
  fvgZones : Option (List FVGZone) := none
  swingHighs : Option (List SwingPoint) := none
  swingLows : Option (List SwingPoint) := none
  earningsWithin30Days : Option Bool := none
  entryConfirmed : Option Bool := none
deriving DecidableEq, Repr

/-- `ClassifiedPick` (output row). -/
structure ClassifiedPick where
  Ticker : String
  Company : Option String
  Price : ℚ
  MarketCap : Option ℚ
  Volume : ℚ
  RelativeVolume : ℚ
  RSI : ℚ
  Sector : Option String
  Trend : Screener.Trend
  NextEarningsDate : Option String
  SelectionReason : SetupReason
  CandlestickPattern : Option Screener.CandlestickPattern
  VolumeShift : Option Screener.VolumeShift
  VolumeShiftStrength : Option ℚ
  BBPosition : Option Screener.BBPosition
  BBPercentB : Option ℚ
  StochPosition : Option Screener.StochPosition
  StochK : Option ℚ
  EarningsWarning : Option Bool
  PriceTargets : Option (List PriceTarget)
  EntryConfirmed : Option Bool
  ReversalTimeline : Option String
deriving DecidableEq, Repr

/-- `EngineInput`: JS objects keyed by ticker become association lists in
insertion order. -/
structure EngineInput where
  params : ScreenerParams
  timeseries : List (String × List Candle)
  metadata : List (String × TickerMeta)
deriving DecidableEq, Repr

/-- `EngineOutput`. -/
structure EngineOutput where
  as_of_date : String
  picks : List ClassifiedPick
deriving DecidableEq, Repr

/-! ### JS helpers -/

/-- JS `x || d` on an optional number: `null` and `0` are falsy. -/
def qOr (x : Option ℚ) (d : ℚ) : ℚ :=
  match x with
  | some v => if v = 0 then d else v
  | none => d

/-- JS `x || null` on an optional number: `0` collapses to `null`. -/
def qOptOr (x : Option ℚ) : Option ℚ :=
  match x with
  | some v => if v = 0 then none else some v
  | none => none

/-- JS `x || null` on an optional string: `""` collapses to `null`. -/
def sOr (x : Option String) : Option String :=
  match x with
  | some s => if s = "" then none else some s
  | none => none

/-- JS `x || null` on an optional boolean: only `true` survives. -/
def bOptOr (x : Option Bool) : Option Bool :=
  if x = some true then some true else none

/-- JS truthiness of an optional boolean. -/
def bTruthy (x : Option Bool) : Bool :=
  x = some true

/-- `xs.slice(-n)` for `n ≥ 1`: the last `n` elements (all of them when
`n ≥ length`). Every call site passes a positive `n`. -/
def lastN (l : List α) (n : ℕ) : List α :=
  l.drop (l.length - n)

/-- Default candle used to totalise in-range index accesses. -/
def dCandle : Candle := ⟨"", 0, 0, 0, 0, 0⟩

/-- `candles[i]` at an index the source already checked to be in range. -/
def getC (l : List Candle) (i : ℕ) : Candle :=
  l.getD i dCandle

/-- `candles[candles.length - 1]`; call sites have checked nonemptiness. -/
def lastCandleOf (l : List Candle) : Candle :=
  l.getLastD dCandle

/-- `Math.max(...)` over a list; call sites pass nonempty lists. -/
def maxQ (l : List ℚ) : ℚ :=
  match l with
  | [] => 0
  | x :: xs => xs.foldl max x

/-- `Math.min(...)` over a list; call sites pass nonempty lists. -/
def minQ (l : List ℚ) : ℚ :=
  match l with
  | [] => 0
  | x :: xs => xs.foldl min x

/-- Sum of a list of rationals (`reduce((s, x) => s + x, 0)`). -/
def sumQ (l : List ℚ) : ℚ :=
  l.foldl (· + ·) 0

/-! ### Indicator library (`engine.ts`) -/

/-- `sma(values, period)`. -/
def sma (values : List ℚ) (period : ℕ) : Option ℚ :=
  if values.length < period then none
  else some (sumQ (lastN values period) / (period : ℚ))

/-- `rsi(closes, period)`: windowed (non-Wilder) RSI over the last `period`
close-to-close deltas. -/
def rsi (closes : List ℚ) (period : ℕ) : Option ℚ :=
  if closes.length < period + 1 then none
  else
    let tail := lastN closes (period + 1)
    let deltas := List.zipWith (fun prev cur => cur - prev) tail tail.tail
    let gains := sumQ (deltas.filter (fun d => 0 < d))
    let losses := (deltas.filter (fun d => ¬ 0 < d)).foldl (fun s d => s - d) 0
    let avgGain := gains / (period : ℚ)
    let avgLoss := losses / (period : ℚ)
    if avgLoss = 0 then some 100
    else some (100 - 100 / (1 + avgGain / avgLoss))

/-- `stochasticK(candles, kPeriod, dPeriod)`; `dPeriod` is unused in source. -/
def stochasticK (candles : List Candle) (kPeriod dPeriod : ℕ) : Option ℚ :=
  if candles.length < kPeriod then none
  else
    let s := lastN candles kPeriod
    let hi := maxQ (s.map (·.h))
    let lo := minQ (s.map (·.l))
    let close := (lastCandleOf candles).c
    if hi = lo then some 50
    else some ((close - lo) / (hi - lo) * 100)

/-- The true-range series (`tr` loop of `atr`). -/
def trueRanges (candles : List Candle) : List ℚ :=
  List.zipWith
    (fun prev cur =>
      max (cur.h - cur.l) (max |cur.h - prev.c| |cur.l - prev.c|))
    candles candles.tail

/-- `atr(candles, period)`. -/
def atr (candles : List Candle) (period : ℕ) : Option ℚ :=
  if candles.length < period + 1 then none
  else sma (trueRanges candles) period

/-- `adx(candles, period)`: single-pass approximation, exactly as in source. -/
def adx (candles : List Candle) (period : ℕ) : Option ℚ :=
  if candles.length < period * 2 then none
  else
    let dms := List.zipWith
      (fun prev cur =>
        let upMove := cur.h - prev.h
        let downMove := prev.l - cur.l
        ((if upMove > downMove ∧ upMove > 0 then upMove else 0),
         (if downMove > upMove ∧ downMove > 0 then downMove else 0)))
      candles candles.tail
    let plusDI := qOr (sma (dms.map Prod.fst) period) 0
    let minusDI := qOr (sma (dms.map Prod.snd) period) 0
    if plusDI + minusDI = 0 then some 0
    else some (|plusDI - minusDI| / (plusDI + minusDI) * 100)

/-- `bollingerBands(closes, period, stdDev)`: (upper, lower, middle);
`sq` models `Math.sqrt`. -/
def bollingerBands (sq : ℚ → ℚ) (closes : List ℚ) (period : ℕ) (stdDev : ℚ) :
    Option (ℚ × ℚ × ℚ) :=
  if closes.length < period then none
  else
    match sma closes period with
    | none => none
    | some middle =>
      let s := lastN closes period
      let variance := sumQ (s.map (fun val => (val - middle) ^ 2)) / (period : ℚ)
      let std := sq variance
      some (middle + std * stdDev, middle - std * stdDev, middle)

/-- `determineTrend(candles, lookback)`. -/
def determineTrend (candles : List Candle) (lookback : ℕ) : Trend :=
  if candles.length < lookback then .sideways
  else
    let s := lastN candles lookback
    let firstClose := (s.headD dCandle).c
    let lastClose := (s.getLastD dCandle).c
    let change := (lastClose - firstClose) / firstClose
    if change > 1/20 then .up
    else if change < -(1/20) then .down
    else .sideways

/-- `calculateSRDistance(candles, proximityPct)`; `proximityPct` is unused in
the source body. -/
def calculateSRDistance (candles : List Candle) (proximityPct : ℚ) : Option ℚ :=
  if candles.length < 20 then none
  else
    let currentPrice := (lastCandleOf candles).c
    let resistance := maxQ ((lastN candles 20).map (·.h))
    let support := minQ ((lastN candles 20).map (·.l))
    let distR := |currentPrice - resistance| / currentPrice * 100
    let distS := |currentPrice - support| / currentPrice * 100
    some (min distR distS)

/-- `analyzeFibonacci(candles, reference, zone)`: (hit, bullishReaction). -/
def analyzeFibonacci (candles : List Candle) (reference : FibReference)
    (zone : FibZone) : Bool × Bool :=
  if candles.length < 50 then (false, false)
  else
    let s := lastN candles 50
    let hi0 := maxQ (s.map (·.h))
    let lo0 := minQ (s.map (·.l))
    let swingHigh := if reference = .swing_high_to_low then lo0 else hi0
    let swingLow := if reference = .swing_high_to_low then hi0 else lo0
    let range := swingHigh - swingLow
    let currentPrice := (lastCandleOf candles).c
    let fib382 := swingLow + range * (382/1000)
    let fib50 := swingLow + range * (1/2)
    let fib618 := swingLow + range * (618/1000)
    let fib127 := swingHigh + range * (27/100)
    let fib1618 := swingHigh + range * (618/1000)
    let tolerance := range * (1/100)
    let hit : Bool :=
      match zone with
      | .z38_50 => decide (fib382 - tolerance ≤ currentPrice ∧ currentPrice ≤ fib50 + tolerance)
      | .z50_618 => decide (fib50 - tolerance ≤ currentPrice ∧ currentPrice ≤ fib618 + tolerance)
      | .z38_618 => decide (fib382 - tolerance ≤ currentPrice ∧ currentPrice ≤ fib618 + tolerance)
      | .ext127 => decide (|currentPrice - fib127| ≤ tolerance)
      | .ext1618 => decide (|currentPrice - fib1618| ≤ tolerance)
      | .star => true
    let bullishReaction : Bool :=
      hit && decide (2 ≤ candles.length) &&
        decide ((getC candles (candles.length - 1)).c > (getC candles (candles.length - 2)).c)
    (hit, bullishReaction)

/-! ### Leo methodology functions (`engine.ts`) -/

/-- `detectCandlestickPattern(candles, atrValue)`; `!atrValue` is falsy for
`null` and `0`. -/
def detectCandlestickPattern (candles : List Candle) (atrValue : Option ℚ) :
    CandlestickPattern :=
  if candles.length < 2 ∨ atrValue = none ∨ atrValue = some 0 then .nopat
  else
    let a := (atrValue.getD 0)
    let current := getC candles (candles.length - 1)
    let previous := getC candles (candles.length - 2)
    let body := |current.c - current.o|
    let range := current.h - current.l
    let upperShadow := current.h - max current.o current.c
    let lowerShadow := min current.o current.c - current.l
    let isBullish := current.c > current.o
    if body < a * (1/10) ∧ range > 0 then
      if upperShadow ≥ body * 2 ∧ lowerShadow < body * (1/2) then .gravestone_doji
      else .doji
    else if lowerShadow ≥ body * 2 ∧ upperShadow < body * (1/2) ∧ isBullish then .hammer
    else if range > 0 ∧ lowerShadow > range * (3/5) then .long_lower_shadow
    else if upperShadow ≥ body * 2 ∧ lowerShadow < body * (1/2) ∧ ¬ isBullish then .shooting_star
    else
      let prevBody := |previous.c - previous.o|
      let prevIsBullish := previous.c > previous.o
      if isBullish ∧ ¬ prevIsBullish ∧ body > prevBody ∧
          current.o ≤ previous.c ∧ current.c ≥ previous.o then .engulfing_bullish
      else if ¬ isBullish ∧ prevIsBullish ∧ body > prevBody ∧
          current.o ≥ previous.c ∧ current.c ≤ previous.o then .engulfing_bearish
      else .nopat

/-- `analyzeVolumeShift(candles, lookback)`. -/
def analyzeVolumeShift (candles : List Candle) (lookback : ℕ) : VolumeAnalysis :=
  if candles.length < lookback then ⟨.neutral, 0, 0, 0⟩
  else
    let recent := lastN candles lookback
    let buyerVolume := sumQ (recent.map (fun cd =>
      if cd.c > cd.o then cd.v else if cd.c < cd.o then 0 else cd.v / 2))
    let sellerVolume := sumQ (recent.map (fun cd =>
      if cd.c > cd.o then 0 else if cd.c < cd.o then cd.v else cd.v / 2))
    let total := buyerVolume + sellerVolume
    if total = 0 then ⟨.neutral, 0, 0, 0⟩
    else
      let buyerFrac := buyerVolume / total
      if buyerFrac > 3/5 then
        ⟨.buyer, min ((buyerFrac - 1/2) * 200) 100, buyerVolume, sellerVolume⟩
      else if buyerFrac < 2/5 then
        ⟨.seller, min ((1/2 - buyerFrac) * 200) 100, buyerVolume, sellerVolume⟩
      else ⟨.neutral, 0, buyerVolume, sellerVolume⟩

/-- `detectFVGs(candles, lookback)`: scans three-candle windows of the last
`lookback + 2` bars, pushing a bullish gap and then a bearish gap per index. -/
def detectFVGs (candles : List Candle) (lookback : ℕ) : List FVGZone :=
  if candles.length < lookback + 2 then []
  else
    let recent := lastN candles (lookback + 2)
    let currentPrice := (lastCandleOf candles).c
    ((List.range recent.length).filter (fun i => 2 ≤ i)).flatMap (fun i =>
      let prev := getC recent (i - 2)
      let cur := getC recent i
      (if cur.l > prev.h then
        [⟨true, cur.l, prev.h, (cur.l + prev.h) / 2, prev.t, cur.t,
          decide (currentPrice ≤ cur.l ∧ prev.h ≤ currentPrice)⟩]
       else []) ++
      (if cur.h < prev.l then
        [⟨false, prev.l, cur.h, (prev.l + cur.h) / 2, prev.t, cur.t,
          decide (cur.h ≤ currentPrice ∧ currentPrice ≤ prev.l)⟩]
       else []))

/-- `detectSwingPoints(candles, strength)`: (highs, lows); a bar is a swing
high/low when it strictly dominates all `strength` bars on both sides. -/
def detectSwingPoints (candles : List Candle) (strength : ℕ) :
    List SwingPoint × List SwingPoint :=
  if candles.length < strength * 2 + 1 then ([], [])
  else
    let idxs := (List.range candles.length).filter
      (fun i => strength ≤ i ∧ i + strength < candles.length)
    let highs := idxs.filterMap (fun i =>
      let cd := getC candles i
      if (List.range strength).all (fun j =>
          decide ((getC candles (i - (j+1))).h < cd.h ∧
                  (getC candles (i + (j+1))).h < cd.h)) then
        some ⟨cd.t, cd.h, true, strength⟩
      else none)
    let lows := idxs.filterMap (fun i =>
      let cd := getC candles i
      if (List.range strength).all (fun j =>
          decide (cd.l < (getC candles (i - (j+1))).l ∧
                  cd.l < (getC candles (i + (j+1))).l)) then
        some ⟨cd.t, cd.l, false, strength⟩
      else none)
    (highs, lows)

/-- `bollingerBandsExtended(closes, period, stdDevMult)`:
(upper, middle, lower, percentB). -/
def bollingerBandsExtended (sq : ℚ → ℚ) (closes : List ℚ) (period : ℕ)
    (stdDevMult : ℚ) : Option (ℚ × ℚ × ℚ × ℚ) :=
  if closes.length < period then none
  else
    match sma closes period with
    | none => none
    | some middle =>
      let s := lastN closes period
      let variance := sumQ (s.map (fun val => (val - middle) ^ 2)) / (period : ℚ)
      let std := sq variance
      let upper := middle + std * stdDevMult
      let lower := middle - std * stdDevMult
      let currentPrice := closes.getLastD 0
      let percentB := if upper ≠ lower then (currentPrice - lower) / (upper - lower) else 1/2
      some (upper, middle, lower, percentB)

/-- `checkEntryConfirmation(candles)`: latest close above previous high. -/
def checkEntryConfirmation (candles : List Candle) : Bool :=
  if candles.length < 2 then false
  else
    decide ((getC candles (candles.length - 1)).c > (getC candles (candles.length - 2)).h)

/-- `checkEarningsWarning(meta, warningDays)`: the impure `new Date()` and the
millisecond parse of the ISO string are abstracted as `nowMs` and `parseMs`. -/
def checkEarningsWarning (parseMs : String → Option ℚ) (nowMs : ℚ)
    (meta : TickerMeta) (warningDays : ℚ) : Bool :=
  match meta.nextEarningsDate with
  | none => false
  | some d =>
    match parseMs d with
    | none => false
    | some t =>
      let diffDays := (t - nowMs) / 86400000
      decide (0 ≤ diffDays ∧ diffDays ≤ warningDays)

/-- The comparator relation of `targets.sort((a, b) => a.price - b.price)`:
ascending by price; `insertionSort` with it is the stable ascending sort
required by the ES specification. -/
def priceLE (a b : PriceTarget) : Prop :=
  a.price ≤ b.price

instance : DecidableRel priceLE :=
  fun a b => inferInstanceAs (Decidable (a.price ≤ b.price))

instance : IsTotal PriceTarget priceLE :=
  ⟨fun a b => le_total a.price b.price⟩

instance : IsTrans PriceTarget priceLE :=
  ⟨fun _ _ _ h1 h2 => le_trans h1 h2⟩

/-- `calculatePriceTargetsFromIndicators(candles, indicators)`. -/
def calculatePriceTargetsFromIndicators (candles : List Candle)
    (ind : Indicators) : List PriceTarget :=
  if candles.length < 20 then []
  else
    let currentPrice := (lastCandleOf candles).c
    let fvgTargets : List PriceTarget :=
      (ind.fvgZones.getD []).filterMap (fun fvg =>
        if fvg.isFilled then none
        else if fvg.bull ∧ fvg.midpoint > currentPrice then
          some ⟨.fvg, fvg.midpoint, "FVG 50% retracement", 80⟩
        else if (¬ fvg.bull) ∧ fvg.midpoint < currentPrice then
          some ⟨.fvg, fvg.midpoint, "FVG 50% retracement", 80⟩
        else none)
    let swingTargets : List PriceTarget :=
      (lastN (ind.swingHighs.getD []) 3).filterMap (fun high =>
        if high.price > currentPrice then
          some ⟨.swing, high.price,
            "Previous swing high (" ++ high.date ++ ")", 70⟩
        else none)
    let pctTarget : PriceTarget :=
      ⟨.percentage, currentPrice * (11/10), "Maximum realistic target (~10%)", 50⟩
    let targets := fvgTargets ++ swingTargets ++ [pctTarget]
    (List.insertionSort priceLE targets).take 5

/-- Direction tag for the Leo reversal score. -/
inductive RevDirection
  | bullish
  | bearish
deriving DecidableEq, Repr

/-- `calculateLeoReversalScore(indicators, direction, volumeStrength)`. -/
def calculateLeoReversalScore (ind : Indicators) (direction : RevDirection)
    (volumeStrength : ℚ) : ℚ :=
  let s0 : ℚ := 70
  let s1 := match ind.bbPercentB with
    | some b =>
      s0 + (match direction with
            | .bullish => (1/5 - b) * 50
            | .bearish => (b - 4/5) * 50)
    | none => s0
  let s2 := match ind.stochK with
    | some k =>
      s1 + (match direction with
            | .bullish => (30 - k) / 2
            | .bearish => (k - 70) / 2)
    | none => s1
  let s3 := s2 + volumeStrength * (1/5)
  let s4 := if ind.entryConfirmed = some true then s3 + 10 else s3
  min s4 100

/-- `classifyLeoReversal(candles, indicators, params)`. -/
def classifyLeoReversal (candles : List Candle) (ind : Indicators)
    (p : ScreenerParams) : Option (SetupReason × ℚ) :=
  if ¬ p.leo_mode_enabled then none
  else
    let volumeStrength := qOr ind.volumeShiftStrength 0
    let patternMatches : Bool :=
      decide (p.candlestick_patterns.length = 0) ||
        (match ind.candlestickPattern with
         | some pat => decide (pat ∈ p.candlestick_patterns)
         | none => false)
    let bullishBlock : Option (SetupReason × ℚ) :=
      match ind.bbPercentB, ind.stochK with
      | some bb, some stochK =>
        if bb < 1/5 ∧ stochK < p.stoch_oversold_threshold then
          let hasBullishPattern : Bool :=
            match ind.candlestickPattern with
            | some pat => decide (pat ∈ ([.doji, .hammer, .long_lower_shadow,
                .engulfing_bullish] : List CandlestickPattern))
            | none => false
          let stochBranch : Option (SetupReason × ℚ) :=
            if stochK < 20 then
              some (.Stoch_Oversold_Reversal, 65 + (20 - stochK))
            else none
          if hasBullishPattern ∧ patternMatches then
            if ind.volumeShift = some .buyer ∧
                (¬ p.require_volume_shift ∨ volumeStrength > 30) then
              some (.Reversal_Accumulation,
                calculateLeoReversalScore ind .bullish volumeStrength)
            else if p.bb_bounce_enabled then
              some (.BB_Lower_Bounce, 75 + (100 - bb * 100))
            else stochBranch
          else stochBranch
        else none
      | _, _ => none
    match bullishBlock with
    | some r => some r
    | none =>
      match ind.bbPercentB, ind.stochK with
      | some bb, some stochK =>
        if bb > 4/5 ∧ stochK > p.stoch_overbought_threshold then
          let hasBearishPattern : Bool :=
            match ind.candlestickPattern with
            | some pat => decide (pat ∈ ([.gravestone_doji, .shooting_star,
                .engulfing_bearish] : List CandlestickPattern))
            | none => false
          let stochBranch : Option (SetupReason × ℚ) :=
            if stochK > 80 then
              some (.Stoch_Overbought_Reversal, 65 + (stochK - 80))
            else none
          if hasBearishPattern ∧ patternMatches then
            if ind.volumeShift = some .seller ∧
                (¬ p.require_volume_shift ∨ volumeStrength > 30) then
              some (.Reversal_Distribution,
                calculateLeoReversalScore ind .bearish volumeStrength)
            else if p.bb_bounce_enabled then
              some (.BB_Upper_Reject, 75 + (bb - 4/5) * 500)
            else stochBranch
          else stochBranch
        else none
      | _, _ => none

/-! ### Filters, standard predicates, scores, classification -/

/-- `passesFixedFilters(candles, meta)`: note the source rejects only
`avgVol20 < minAvgVol20` and `relVol < minRelativeVol` (equality passes),
while the close check rejects `lastClose <= minPrice`. -/
def passesFixedFilters (candles : List Candle) (meta : TickerMeta) : Bool :=
  if candles.length < FIXED_FILTERS.minBars then false
  else
    let lastCandle := lastCandleOf candles
    if lastCandle.c ≤ FIXED_FILTERS.minPrice then false
    else
      let last20 := lastN candles 20
      let avgVol20 := sumQ (last20.map (·.v)) / (last20.length : ℚ)
      if avgVol20 < FIXED_FILTERS.minAvgVol20 then false
      else
        let relVol := lastCandle.v / avgVol20
        if relVol < FIXED_FILTERS.minRelativeVol then false
        else true

/-- `passesUserFilters(meta, params)`. -/
def passesUserFilters (meta : TickerMeta) (p : ScreenerParams) : Bool :=
  if p.user_sector ≠ "*" ∧ meta.sector ≠ some p.user_sector then false
  else if p.user_industry ≠ "*" ∧ meta.industry ≠ some p.user_industry then false
  else
    let marketCap := qOr meta.marketCap 0
    if marketCap < p.market_cap_min ∨ marketCap > p.market_cap_max then false
    else true

/-- `isBreakout(candles, indicators)`; `!indicators.hh20` is falsy for `null`
and `0`. -/
def isBreakout (candles : List Candle) (ind : Indicators) : Bool :=
  match ind.hh20, ind.ll20 with
  | some hh, some ll =>
    if hh = 0 ∨ ll = 0 then false
    else
      let currentPrice := (lastCandleOf candles).c
      let volume := (lastCandleOf candles).v
      let avgVol := qOr ind.avgVol20 0
      decide (currentPrice > hh ∧ volume > avgVol * (3/2))
  | _, _ => false

/-- `isMomentum(candles, indicators)`. -/
def isMomentum (candles : List Candle) (ind : Indicators) : Bool :=
  match ind.rsi14, ind.adx14 with
  | some r, some a => decide (r > 60 ∧ a > 25 ∧ ind.trend = some .up)
  | _, _ => false

/-- `isPullback(candles, indicators)`; `!sma20` is falsy for `null` and `0`. -/
def isPullback (candles : List Candle) (ind : Indicators) : Bool :=
  match ind.sma20, ind.rsi14 with
  | some s, some r =>
    if s = 0 then false
    else
      let currentPrice := (lastCandleOf candles).c
      decide (ind.trend = some .up ∧ currentPrice ≤ s * (51/50) ∧ r < 50 ∧ r > 30)
  | _, _ => false

/-- `isConsolidation(candles, indicators)`. -/
def isConsolidation (candles : List Candle) (ind : Indicators) : Bool :=
  match ind.bbWidth, ind.adx14 with
  | some w, some a => decide (w < 1/10 ∧ a < 20)
  | _, _ => false

/-- `isReversal(candles, indicators)`. -/
def isReversal (candles : List Candle) (ind : Indicators) : Bool :=
  match ind.rsi14, ind.srDistancePct with
  | some r, some d =>
    decide (((r < 30 ∧ ind.trend = some .down) ∨ (r > 70 ∧ ind.trend = some .up)) ∧ d < 2)
  | _, _ => false

/-- `calculateBreakoutScore`. -/
def calculateBreakoutScore (candles : List Candle) (ind : Indicators) : ℚ :=
  let volume := (lastCandleOf candles).v
  let avgVol := qOr ind.avgVol20 1
  let relV := volume / avgVol
  min (relV * 10) 100

/-- `calculateMomentumScore`. -/
def calculateMomentumScore (candles : List Candle) (ind : Indicators) : ℚ :=
  (qOr ind.rsi14 50 - 50) + qOr ind.adx14 0

/-- `calculatePullbackScore`. -/
def calculatePullbackScore (candles : List Candle) (ind : Indicators) : ℚ :=
  let r := qOr ind.rsi14 50
  let s := qOr ind.sma20 0
  let currentPrice := (lastCandleOf candles).c
  let priceScore := max 0 (100 - |currentPrice - s| / s * 100)
  let rsiScore := max 0 (50 - r)
  priceScore + rsiScore

/-- `calculateFibPullbackScore`. -/
def calculateFibPullbackScore (candles : List Candle) (ind : Indicators) : ℚ :=
  calculatePullbackScore candles ind * (6/5)

/-- `calculateConsolidationScore`. -/
def calculateConsolidationScore (candles : List Candle) (ind : Indicators) : ℚ :=
  let w := qOr ind.bbWidth 1
  let a := qOr ind.adx14 50
  max 0 (100 - w * 1000) + max 0 (50 - a)

/-- `calculateReversalScore`. -/
def calculateReversalScore (candles : List Candle) (ind : Indicators) : ℚ :=
  let r := qOr ind.rsi14 50
  let d := qOr ind.srDistancePct 10
  let rsiExtreme := max 0 (|r - 50| - 20)
  let proximityScore := max 0 (10 - d) * 10
  rsiExtreme + proximityScore

/-- `classifySetup(candles, indicators, params)`: Leo predicates first when
Leo mode is enabled, then the standard first-match chain. -/
def classifySetup (candles : List Candle) (ind : Indicators)
    (p : ScreenerParams) : Option (SetupReason × ℚ) :=
  let leo : Option (SetupReason × ℚ) :=
    if p.leo_mode_enabled then classifyLeoReversal candles ind p else none
  match leo with
  | some r => some r
  | none =>
    if isBreakout candles ind then
      some (.Breakout, calculateBreakoutScore candles ind)
    else if isMomentum candles ind then
      some (.Momentum, calculateMomentumScore candles ind)
    else if bTruthy ind.fibHit ∧ bTruthy ind.reactionBullish then
      some (.FibPullback, calculateFibPullbackScore candles ind)
    else if isPullback candles ind then
      some (.Pullback, calculatePullbackScore candles ind)
    else if isConsolidation candles ind then
      some (.Consolidation, calculateConsolidationScore candles ind)
    else if isReversal candles ind then
      some (.Reversal, calculateReversalScore candles ind)
    else none

/-! ### Indicator snapshot and indicator filters -/

/-- `calculateIndicators(candles, params, meta)`; `sq` models `Math.sqrt`,
`parseMs`/`nowMs` model the impure date arithmetic of the earnings check. -/
def calculateIndicators (sq : ℚ → ℚ) (parseMs : String → Option ℚ) (nowMs : ℚ)
    (candles : List Candle) (p : ScreenerParams) (meta : Option TickerMeta) :
    Indicators :=
  let closes := candles.map (·.c)
  let volumes := candles.map (·.v)
  let sma20v := sma closes 20
  let atrv := atr candles p.atr_lookback.num.toNat
  let avgVol20v := sma volumes 20
  let relVolv : Option ℚ :=
    match avgVol20v with
    | some a => if a = 0 then none else some ((lastCandleOf candles).v / a)
    | none => none
  let bbWidthv : Option ℚ :=
    match bollingerBands sq closes 20 2, sma20v with
    | some (upper, lower, _), some m =>
      if m = 0 then none else some ((upper - lower) / m)
    | _, _ => none
  let fibResult := analyzeFibonacci candles p.fib_reference p.fib_zone
  let bbExt := if p.leo_mode_enabled then bollingerBandsExtended sq closes 20 2 else none
  let volumeAnalysis := analyzeVolumeShift candles 5
  let swingPoints := detectSwingPoints candles 3
  { sma20 := sma20v
    sma50 := sma closes 50
    sma200 := sma closes 200
    rsi14 := rsi closes 14
    stochK := stochasticK candles 14 3
    atrv := atrv
    adx14 := adx candles 14
    avgVol20 := avgVol20v
    relVol := relVolv
    hh20 := some (maxQ ((lastN candles 20).map (·.h)))
    ll20 := some (minQ ((lastN candles 20).map (·.l)))
    bbWidth := bbWidthv
    trend := some (determineTrend candles p.trend_lookback.num.toNat)
    srDistancePct := calculateSRDistance candles p.sr_proximity_pct
    fibHit := some fibResult.1
    reactionBullish := some fibResult.2
    bbUpper := bbExt.map (·.1)
    bbMiddle := bbExt.map (·.2.1)
    bbLower := bbExt.map (·.2.2.1)
    bbPercentB := bbExt.map (·.2.2.2)
    stochD := none
    candlestickPattern :=
      if p.leo_mode_enabled then some (detectCandlestickPattern candles atrv) else none
    volumeShift := if p.leo_mode_enabled then some volumeAnalysis.shift else none
    volumeShiftStrength := if p.leo_mode_enabled then some volumeAnalysis.strength else none
    fvgZones := if p.leo_mode_enabled then some (detectFVGs candles 20) else none
    swingHighs := if p.leo_mode_enabled then some swingPoints.1 else none
    swingLows := if p.leo_mode_enabled then some swingPoints.2 else none
    entryConfirmed := if p.leo_mode_enabled then some (checkEntryConfirmation candles) else none
    earningsWithin30Days :=
      if p.leo_mode_enabled then
        match meta with
        | some m => some (checkEarningsWarning parseMs nowMs m p.earnings_warning_days)
        | none => none
      else none }

/-- `passesIndicatorFilters(indicators, params)`. -/
def passesIndicatorFilters (ind : Indicators) (p : ScreenerParams) : Bool :=
  match ind.rsi14 with
  | none => false
  | some r =>
    let stochOk : Bool :=
      match ind.stochK with
      | some k => decide (p.stoch_k_min ≤ k ∧ k ≤ p.stoch_k_max)
      | none => false
    let trendOk : Bool :=
      match p.trend_type with
      | some t => decide (ind.trend = some t)
      | none => true
    if r < p.rsi_min ∨ r > p.rsi_max then false
    else if ¬ p.leo_mode_enabled ∧ ¬ stochOk then false
    else if ¬ trendOk then false
    else
      match ind.adx14 with
      | none => false
      | some a =>
        if a < p.adx_min then false
        else
          let maOk : Bool :=
            match p.ma_cross with
            | .noCross => true
            | mc =>
              match ind.sma20, ind.sma50, ind.sma200 with
              | some s20, some s50, some s200 =>
                match mc with
                | .c20_50 => decide (s20 > s50)
                | .c50_200 => decide (s50 > s200)
                | .c20_200 => decide (s20 > s200)
                | .noCross => true
              | _, _, _ => false
          if ¬ maOk then false
          else
            match ind.srDistancePct with
            | some d => if d > p.sr_proximity_pct then false else true
            | none => true

/-! ### Parameter validation (`contract.ts` `validateParams`) -/

/-- `^\d` `4` `-\d` `2` `-\d` `2` `$` ISO-date shape test of `validateParams`. -/
def isIsoDate (s : String) : Bool :=
  match s.toList with
  | [y1, y2, y3, y4, d1, m1, m2, d2, a1, a2] =>
    y1.isDigit && y2.isDigit && y3.isDigit && y4.isDigit &&
    (d1 = '-') && m1.isDigit && m2.isDigit && (d2 = '-') && a1.isDigit && a2.isDigit
  | _ => false

/-- `Number.isInteger` on a rational. -/
def isIntegerQ (x : ℚ) : Bool :=
  x.den = 1

/-- `validateParams(p)`; with a full (non-partial) input the
`{...DEFAULT_PARAMS, ...p}` merge is the identity, and every enum field is
already well-typed in this embedding, so those runtime enum guards pass. -/
def validateParams (p : ScreenerParams) : Except String ScreenerParams :=
  if ¬ isIsoDate p.as_of_date then
    Except.error "as_of_date must be ISO YYYY-MM-DD"
  else if p.market_cap_min > p.market_cap_max then
    Except.error "market_cap_min must be at most market_cap_max"
  else if ¬ (0 ≤ p.rsi_min ∧ p.rsi_min ≤ 100 ∧ 0 ≤ p.rsi_max ∧ p.rsi_max ≤ 100 ∧
      p.rsi_min ≤ p.rsi_max) then
    Except.error "RSI bounds must be within 0-100 and rsi_min at most rsi_max"
  else if ¬ (0 ≤ p.stoch_k_min ∧ p.stoch_k_min ≤ 100 ∧ 0 ≤ p.stoch_k_max ∧
      p.stoch_k_max ≤ 100 ∧ p.stoch_k_min ≤ p.stoch_k_max) then
    Except.error "Stochastic bounds must be within 0-100 and stoch_k_min at most stoch_k_max"
  else if ¬ (isIntegerQ p.trend_lookback ∧ 0 < p.trend_lookback) then
    Except.error "trend_lookback must be a positive integer"
  else if ¬ (isIntegerQ p.max_results ∧ 0 < p.max_results) then
    Except.error "max_results must be a positive integer"
  else if ¬ (0 ≤ p.sr_proximity_pct) then
    Except.error "sr_proximity_pct must be a non-negative number"
  else if ¬ (0 ≤ p.adx_min) then
    Except.error "adx_min must be a non-negative number"
  else if ¬ (isIntegerQ p.atr_lookback ∧ 0 < p.atr_lookback) then
    Except.error "atr_lookback must be a positive integer"
  else Except.ok p

/-! ### Engine pipeline (`runEngine`) -/

/-- `DOW_JONES` of `data/indexLists.ts` (30 stocks). -/
def DOW_JONES : List String :=
  ["AAPL", "AMGN", "AXP", "BA", "CAT", "CRM", "CSCO", "CVX", "DIS", "DOW",
   "GS", "HD", "HON", "IBM", "INTC", "JNJ", "JPM", "KO", "MCD", "MMM",
   "MRK", "MSFT", "NKE", "PG", "TRV", "UNH", "V", "VZ", "WBA", "WMT"]

/-- `NASDAQ_100` of `data/indexLists.ts`. -/
def NASDAQ_100 : List String :=
  ["AAPL", "ABNB", "ADBE", "ADI", "ADP", "ADSK", "AEP", "AMAT", "AMD", "AMGN",
   "AMZN", "ANSS", "ARM", "ASML", "AVGO", "AZN", "BIIB", "BKNG", "BKR", "CCEP",
   "CDNS", "CDW", "CEG", "CHTR", "CMCSA", "COST", "CPRT", "CRWD", "CSCO", "CSGP",
   "CSX", "CTAS", "CTSH", "DASH", "DDOG", "DLTR", "DXCM", "EA", "EXC", "FANG",
   "FAST", "FTNT", "GEHC", "GFS", "GILD", "GOOG", "GOOGL", "HON", "IDXX", "ILMN",
   "INTC", "INTU", "ISRG", "KDP", "KHC", "KLAC", "LIN", "LRCX", "LULU", "MAR",
   "MCHP", "MDB", "MDLZ", "MELI", "META", "MNST", "MRNA", "MRVL", "MSFT", "MU",
   "NFLX", "NVDA", "NXPI", "ODFL", "ON", "ORLY", "PANW", "PAYX", "PCAR", "PDD",
   "PEP", "PYPL", "QCOM", "REGN", "ROP", "ROST", "SBUX", "SMCI", "SNPS", "TEAM",
   "TMUS", "TSLA", "TTD", "TTWO", "TXN", "VRSK", "VRTX", "WBD", "WDAY", "ZS"]

/-- `SP500` of `data/indexLists.ts` (the repository's 200-symbol sample). -/
def SP500 : List String :=
  ["AAPL", "MSFT", "AMZN", "NVDA", "GOOGL", "META", "BRK.B", "LLY", "AVGO", "JPM",
   "TSLA", "UNH", "V", "XOM", "MA", "JNJ", "HD", "PG", "COST", "MRK",
   "ABBV", "CVX", "CRM", "NFLX", "AMD", "KO", "PEP", "BAC", "ADBE", "WMT",
   "TMO", "MCD", "CSCO", "ACN", "LIN", "ABT", "ORCL", "DHR", "QCOM", "INTU",
   "CMCSA", "TXN", "WFC", "VZ", "DIS", "PM", "INTC", "IBM", "AMGN", "NKE",
   "CAT", "RTX", "GE", "SPGI", "HON", "ISRG", "NOW", "GS", "NEE", "BKNG",
   "UNP", "LOW", "T", "ELV", "AMAT", "PFE", "AXP", "MS", "SYK", "BLK",
   "VRTX", "TJX", "DE", "SBUX", "MDT", "LRCX", "PLD", "MDLZ", "GILD", "ADP",
   "AMT", "C", "MMC", "ADI", "REGN", "SCHW", "CB", "ETN", "MO", "CI",
   "ZTS", "PANW", "SO", "DUK", "CME", "BDX", "KLAC", "SNPS", "ICE", "CDNS",
   "PNC", "CL", "EOG", "EQIX", "MU", "SHW", "MCO", "AON", "ITW", "NOC",
   "APD", "FDX", "USB", "HUM", "CMG", "TGT", "GD", "ORLY", "MAR", "CTAS",
   "PGR", "TDG", "MSI", "FCX", "EMR", "AJG", "PSA", "NSC", "SLB", "CARR",
   "WM", "ROP", "ECL", "APH", "COF", "PCAR", "AZO", "MCHP", "ADSK", "ROST",
   "OXY", "CCI", "WELL", "HLT", "AFL", "F", "GM", "CPRT", "AEP", "MNST",
   "JCI", "MET", "AIG", "SRE", "TFC", "PSX", "PAYX", "MSCI", "NXPI", "KMB",
   "SPG", "NEM", "VLO", "DHI", "FTNT", "DLR", "TEL", "HES", "IDXX", "O",
   "GWW", "KMI", "COR", "D", "A", "BK", "YUM", "ODFL", "CMI", "ALL",
   "KHC", "IQV", "PRU", "FAST", "PCG", "CTVA", "GIS", "LHX", "OTIS", "PEG",
   "HSY", "VRSK", "EA", "EW", "CTSH", "ED", "IT", "XEL", "VMC", "HAL",
   "GEHC", "RCL", "BIIB", "CHTR", "KR", "FANG", "MTD", "WAB", "CBRE", "EXC",
   "ACGL", "MLM", "ON", "EIX", "DAL", "PPG", "HWM", "KEYS", "DOW", "AWK",
   "WEC", "EFX", "ROK", "ANSS", "CDW", "FTV", "GRMN", "STZ", "SYY", "MTB",
   "NUE", "RMD", "TROW", "HPQ", "WTW", "ZBH", "DTE", "VICI", "GLW", "BRO",
   "AVB", "CHD", "PPL", "AMP", "ES", "SBAC", "LYB", "FE", "EQR", "ULTA"]

/-- `RUSSELL_2000_SAMPLE` of `data/indexLists.ts` (kept verbatim, duplicate
entries included). -/
def RUSSELL_2000_SAMPLE : List String :=
  ["AMC", "GME", "PLUG", "SIRI", "RIOT", "MARA", "SOFI", "HOOD", "LCID", "RIVN",
   "PLTR", "SNAP", "RBLX", "DKNG", "COIN", "AFRM", "PATH", "U", "CRSP", "BEAM",
   "ROKU", "BILL", "NET", "SNOW", "DOCU", "ZM", "OKTA", "TWLO", "SQ", "SHOP",
   "BYND", "SPCE", "NKLA", "LAZR", "WKHS", "GOEV", "FSR", "QS", "BLNK", "CHPT",
   "STEM", "RUN", "NOVA", "ENPH", "SEDG", "FSLR", "ARRY", "JKS", "MAXN", "SPWR",
   "WOLF", "CRNC", "DQ", "CSIQ", "SOL", "GEVO", "BE", "BLDP", "PLUG", "FCEL",
   "APPS", "CRSR", "HEAR", "GPRO", "SONO", "OLED", "MTCH", "PINS", "ETSY", "W",
   "CHWY", "PTON", "OPEN", "CVNA", "CARG", "VRM", "SFT", "RIDE", "ARVL", "REE",
   "XPEV", "LI", "NIO", "PSNY", "FFIE", "MULN", "GOEV", "FSR", "LCID", "RIVN",
   "JOBY", "ACHR", "EVTL", "LILM", "EVGO", "CHPT", "BLNK", "DCFC", "AMPX", "PTRA"]

/-- `INDEX_CONSTITUENTS` of `data/indexLists.ts`, restricted to the four
`IndexName` keys the engine can pass (the record's fifth key `"*"` maps to
the empty list and is unreachable from `isTickerInIndices`). -/
def INDEX_CONSTITUENTS : IndexName → List String
  | .sp500 => SP500
  | .dowjones => DOW_JONES
  | .nasdaq100 => NASDAQ_100
  | .russell2000 => RUSSELL_2000_SAMPLE

/-- `isTickerInIndices(ticker, indexFilters)` of `data/indexLists.ts`: an
empty filter list passes everything; otherwise the upper-cased ticker must
appear in at least one selected index's constituent list (`toUpperCase()`
modelled by `String.toUpper`; all constituents are ASCII). -/
def isTickerInIndices (ticker : String) (indexFilters : List IndexName) :
    Bool :=
  if indexFilters.length = 0 then true
  else
    let upperTicker := ticker.toUpper
    indexFilters.any (fun idx => (INDEX_CONSTITUENTS idx).contains upperTicker)

/-- Internal `StockAnalysis` row. -/
structure StockAnalysis where
  ticker : String
  meta : TickerMeta
  candles : List Candle
  indicators : Indicators
  setupReason : SetupReason
  score : ℚ
deriving DecidableEq, Repr

/-- The per-ticker filter/classify loop of `runEngine`, in `Object.entries`
(insertion) order, producing the `analyses` list. -/
def analyzeAll (sq : ℚ → ℚ) (parseMs : String → Option ℚ) (nowMs : ℚ)
    (input : EngineInput) (p : ScreenerParams) : List StockAnalysis :=
  input.timeseries.filterMap (fun entry =>
    let ticker := entry.1
    let candles := entry.2
    match (input.metadata.find? (fun kv => kv.1 = ticker)).map (·.2) with
    | none => none
    | some meta =>
      if candles.length < FIXED_FILTERS.minBars then none
      else if ¬ passesFixedFilters candles meta then none
      else if ¬ passesUserFilters meta p then none
      else if p.leo_mode_enabled ∧ (lastCandleOf candles).c < p.min_price_leo then none
      else if p.leo_mode_enabled ∧ p.index_filters.length > 0 ∧
          ¬ isTickerInIndices ticker p.index_filters then none
      else
        let ind := calculateIndicators sq parseMs nowMs candles p (some meta)
        if ¬ passesIndicatorFilters ind p then none
        else
          match classifySetup candles ind p with
          | none => none
          | some rs => some ⟨ticker, meta, candles, ind, rs.1, rs.2⟩)

/-- The comparator relation of `setupGroups[reason].sort((a, b) => b.score -
a.score)`: descending by score; `insertionSort` with it is the stable
descending sort required by the ES specification. -/
def scoreGE (a b : StockAnalysis) : Prop :=
  b.score ≤ a.score

instance : DecidableRel scoreGE :=
  fun a b => inferInstanceAs (Decidable (b.score ≤ a.score))

instance : IsTotal StockAnalysis scoreGE :=
  ⟨fun a b => le_total b.score a.score⟩

instance : IsTrans StockAnalysis scoreGE :=
  ⟨fun _ _ _ h1 h2 => le_trans h2 h1⟩

/-- `setupGroups[r]`, already sorted descending by score: grouping pushes in
discovery order, so the group is the score-stable sort of the filter. -/
def sortedGroupFor (analyses : List StockAnalysis) (r : SetupReason) :
    List StockAnalysis :=
  List.insertionSort scoreGE (analyses.filter (fun a => a.setupReason = r))

/-- The `priorityOrder` lists of `runEngine` (Leo block first when enabled). -/
def priorityOrder (leo : Bool) : List SetupReason :=
  if leo then
    [.Reversal_Accumulation, .BB_Lower_Bounce, .Stoch_Oversold_Reversal,
     .Reversal_Distribution, .BB_Upper_Reject, .Stoch_Overbought_Reversal,
     .Breakout, .Momentum, .Pullback, .FibPullback, .Consolidation, .Reversal]
  else
    [.Breakout, .Momentum, .Pullback, .FibPullback, .Consolidation, .Reversal,
     .Reversal_Accumulation, .Reversal_Distribution, .BB_Lower_Bounce,
     .BB_Upper_Reject, .Stoch_Oversold_Reversal, .Stoch_Overbought_Reversal]

/-- The cap-respecting merge loop of `runEngine`: walk the priority order,
take `min (group length) remaining` from each group, stop when `remaining`
reaches zero. -/
def mergeGroups (order : List SetupReason)
    (groups : SetupReason → List StockAnalysis) (remaining : ℕ) :
    List StockAnalysis :=
  match order with
  | [] => []
  | r :: rest =>
    let g := groups r
    let tk := min g.length remaining
    g.take tk ++
      (if remaining - tk = 0 then [] else mergeGroups rest groups (remaining - tk))

/-- The ordered `finalPicks` (internal rows, scores still attached). -/
def enginePicks (sq : ℚ → ℚ) (parseMs : String → Option ℚ) (nowMs : ℚ)
    (input : EngineInput) (p : ScreenerParams) : List StockAnalysis :=
  mergeGroups (priorityOrder p.leo_mode_enabled)
    (sortedGroupFor (analyzeAll sq parseMs nowMs input p))
    p.max_results.num.toNat

/-- The output-row conversion at the end of `runEngine` (with all of its JS
`||` coalescing made explicit). -/
def toPick (p : ScreenerParams) (a : StockAnalysis) : ClassifiedPick :=
  let ind := a.indicators
  let lastCandle := lastCandleOf a.candles
  let bbPosition : Option BBPosition :=
    match ind.bbPercentB with
    | some b =>
      some (if b < 1/10 then .lower_bounce
            else if b > 9/10 then .upper_reject
            else .middle)
    | none => none
  let stochPosition : Option StochPosition :=
    match ind.stochK with
    | some k =>
      some (if k < p.stoch_oversold_threshold then .oversold
            else if k > p.stoch_overbought_threshold then .overbought
            else .neutral)
    | none => none
  { Ticker := a.ticker
    Company := sOr a.meta.company
    Price := lastCandle.c
    MarketCap := qOptOr a.meta.marketCap
    Volume := lastCandle.v
    RelativeVolume := qOr ind.relVol 0
    RSI := qOr ind.rsi14 0
    Sector := sOr a.meta.sector
    Trend := (ind.trend).getD .sideways
    NextEarningsDate := sOr a.meta.nextEarningsDate
    SelectionReason := a.setupReason
    CandlestickPattern := ind.candlestickPattern
    VolumeShift := ind.volumeShift
    VolumeShiftStrength := qOptOr ind.volumeShiftStrength
    BBPosition := bbPosition
    BBPercentB := qOptOr ind.bbPercentB
    StochPosition := stochPosition
    StochK := qOptOr ind.stochK
    EarningsWarning := bOptOr ind.earningsWithin30Days
    PriceTargets := some (calculatePriceTargetsFromIndicators a.candles ind)
    EntryConfirmed := bOptOr ind.entryConfirmed
    ReversalTimeline := some "3-5 candles" }

/-- `runEngine(input)`: assert the fixed-filter constant, validate the
parameters (aborting before any ticker is touched), then filter, classify,
group, sort, merge under the cap, and convert to output rows. -/
def runEngine (sq : ℚ → ℚ) (parseMs : String → Option ℚ) (nowMs : ℚ)
    (input : EngineInput) : Except String EngineOutput :=
  match assertFixedFilters with
  | Except.error e => Except.error e
  | Except.ok _ =>
    match validateParams input.params with
    | Except.error e => Except.error e
    | Except.ok p =>
      Except.ok
        { as_of_date := p.as_of_date
          picks := (enginePicks sq parseMs nowMs input p).map (toPick p) }

/-! ### List helpers used by the proofs -/

theorem getLastD_replicate {α : Type} (n : ℕ) (a d : α) :
    (List.replicate (n + 1) a).getLastD d = a := by
  induction n generalizing d with
  | zero => rfl
  | succ k ih =>
    rw [List.replicate_succ, List.getLastD_cons]
    exact ih a

theorem sumQ_replicate (n : ℕ) (x : ℚ) :
    sumQ (List.replicate n x) = n * x := by
  have key : ∀ (k : ℕ) (acc : ℚ),
      (List.replicate k x).foldl (· + ·) acc = acc + k * x := by
    intro k
    induction k with
    | zero => intro acc; simp
    | succ j ih =>
      intro acc
      rw [List.replicate_succ, List.foldl_cons, ih]
      push_cast
      ring
  rw [sumQ, key]
  simp

theorem lastCandleOf_mem (l : List Candle) (h : l ≠ []) : lastCandleOf l ∈ l := by
  induction l with
  | nil => exact absurd rfl h
  | cons a t ih =>
    rw [lastCandleOf, List.getLastD_cons]
    cases t with
    | nil => exact List.mem_singleton.mpr rfl
    | cons b t' =>
      have := ih (by simp)
      rw [lastCandleOf] at this
      right
      have heq : ∀ d₁ d₂ : Candle, (b :: t').getLastD d₁ = (b :: t').getLastD d₂ := by
        intro d₁ d₂
        rw [List.getLastD_cons, List.getLastD_cons]
      rw [heq a dCandle]
      exact this

theorem lastCandleOf_mem_lastN (l : List Candle) (n : ℕ) (hl : l ≠ [])
    (hn : 0 < n) : lastCandleOf l ∈ lastN l n := by
  induction l with
  | nil => exact absurd rfl hl
  | cons a t ih =>
    rw [lastN]
    cases t with
    | nil =>
      have : (([a] : List Candle).length - n) = 0 := by
        simp only [List.length_singleton]
        omega
      rw [this, List.drop_zero]
      exact lastCandleOf_mem [a] (by simp)
    | cons b t' =>
      by_cases hcase : (a :: b :: t').length ≤ n
      · rw [Nat.sub_eq_zero_of_le hcase, List.drop_zero]
        exact lastCandleOf_mem _ (by simp)
      · push_neg at hcase
        have hlen : (a :: b :: t').length - n = ((b :: t').length - n) + 1 := by
          simp only [List.length_cons] at hcase ⊢
          omega
        rw [hlen, List.drop_succ_cons]
        have hmem := ih (by simp)
        rw [lastN] at hmem
        have hlast : lastCandleOf (a :: b :: t') = lastCandleOf (b :: t') := by
          rw [lastCandleOf, lastCandleOf, List.getLastD_cons, List.getLastD_cons,
            List.getLastD_cons]
        rw [hlast]
        exact hmem

theorem le_maxQ_of_mem {x : ℚ} {l : List ℚ} (h : x ∈ l) : x ≤ maxQ l := by
  match l with
  | [] => exact absurd h (List.not_mem_nil x)
  | a :: t =>
    rw [maxQ]
    have key : ∀ (t : List ℚ) (b : ℚ), (b ≤ t.foldl max b) ∧ ∀ y ∈ t, y ≤ t.foldl max b := by
      intro t
      induction t with
      | nil => intro b; simp
      | cons c t' ih =>
        intro b
        refine ⟨?_, ?_⟩
        · rw [List.foldl_cons]
          exact le_trans (le_max_left b c) (ih (max b c)).1
        · intro y hy
          rw [List.foldl_cons]
          rcases List.mem_cons.mp hy with rfl | hy'
          · exact le_trans (le_max_right b y) (ih (max b y)).1
          · exact (ih (max b c)).2 y hy'
    rcases List.mem_cons.mp h with rfl | hx
    · exact (key t x).1
    · exact (key t a).2 x hx

theorem of_mem_zipWith {f : ℚ → ℚ → ℚ} :
    ∀ {l₁ l₂ : List ℚ} {x : ℚ}, x ∈ List.zipWith f l₁ l₂ →
      ∃ a b, a ∈ l₁ ∧ b ∈ l₂ ∧ x = f a b := by
  intro l₁
  induction l₁ with
  | nil => intro l₂ x h; simp at h
  | cons a t ih =>
    intro l₂ x h
    cases l₂ with
    | nil => simp at h
    | cons b t₂ =>
      rw [List.zipWith_cons_cons] at h
      rcases List.mem_cons.mp h with rfl | h'
      · exact ⟨a, b, List.mem_cons_self a t, List.mem_cons_self b t₂, rfl⟩
      · obtain ⟨a', b', ha, hb, rfl⟩ := ih h'
        exact ⟨a', b', List.mem_cons_of_mem a ha, List.mem_cons_of_mem b hb, rfl⟩

theorem foldl_sub_eq_of_zeros (l : List ℚ) (h : ∀ d ∈ l, d = 0) :
    ∀ s : ℚ, l.foldl (fun s d => s - d) s = s := by
  induction l with
  | nil => intro s; rfl
  | cons a t ih =>
    intro s
    rw [List.foldl_cons, h a (List.mem_cons_self a t), sub_zero]
    exact ih (fun d hd => h d (List.mem_cons_of_mem a hd)) s

/-! ### C1 — fixed-filter boundary -/

/-- A ticker whose last 20 bars all carry volume exactly 1,000,000 (so its
20-day average volume is exactly 1,000,000 and its relative volume exactly
1.0), with 250 bars of history and last close 35. -/
def c1Candle : Candle := ⟨"2025-01-02", 35, 35, 35, 35, 1000000⟩

def c1Meta : TickerMeta := { ticker := "EQVOL" }

/-- C1: the claim says a ticker whose 20-day average volume is exactly
1,000,000 (equivalently, whose relative volume is exactly 1.0) must be
excluded by the fixed filters. The code accepts it: `passesFixedFilters`
rejects only `avgVol20 < 1,000,000` and `relVol < 1.0`, so equality passes —
contradicting the spec, the `FIXED_FILTERS` inline comments
(`vol / SMA20(vol) > 1.0`) and the repository's own self-test, whose cases
document `avgVol20 == 1_000_000 -> must FAIL` and `relVol == 1.0 -> must
FAIL`. Here the failing input (250 identical bars, close 35, volume
1,000,000) passes the fixed-filter stage. -/
theorem c1_fixed_filter_equality_passes :
    passesFixedFilters (List.replicate 250 c1Candle) c1Meta = true := by
  have h249 : (250 : ℕ) = 249 + 1 := rfl
  rw [passesFixedFilters]
  rw [if_neg (by simp [FIXED_FILTERS])]
  rw [lastCandleOf, h249, getLastD_replicate]
  rw [if_neg (by norm_num [c1Candle, FIXED_FILTERS])]
  rw [lastN]
  simp only [List.length_replicate]
  rw [List.drop_replicate]
  norm_num
  rw [sumQ_replicate]
  norm_num [c1Candle, FIXED_FILTERS]

/-! ### C6 — RSI and Stochastic degenerate cases -/

/-- C6: an all-flat closing-price window (at least `period + 1` closes, all
equal, so the average loss over the last `period` deltas is zero) makes `rsi`
return exactly 100; and a window whose highest high equals its lowest low
makes `stochasticK` return exactly 50. Stated for every positive period, as
at the call sites (`rsi(closes, 14)`, `stochasticK(candles, 14, 3)`). -/
theorem c6_rsi_stochastic_degenerate :
    (∀ (closes : List ℚ) (period : ℕ) (k : ℚ), 0 < period →
      period + 1 ≤ closes.length → (∀ x ∈ closes, x = k) →
      rsi closes period = some 100) ∧
    (∀ (candles : List Candle) (kPeriod dPeriod : ℕ), 0 < kPeriod →
      kPeriod ≤ candles.length →
      maxQ ((lastN candles kPeriod).map (·.h)) =
        minQ ((lastN candles kPeriod).map (·.l)) →
      stochasticK candles kPeriod dPeriod = some 50) := by
  constructor
  · intro closes period k _ hlen hflat
    rw [rsi, if_neg (by omega)]
    have hz : ∀ d ∈ List.zipWith (fun prev cur => cur - prev)
        (lastN closes (period + 1)) (lastN closes (period + 1)).tail, d = 0 := by
      intro d hd
      obtain ⟨a, b, ha, hb, rfl⟩ := of_mem_zipWith hd
      have ha' : a = k := hflat a (List.mem_of_mem_drop ha)
      have hb' : b = k := hflat b (List.mem_of_mem_drop (List.tail_subset _ hb))
      rw [ha', hb', sub_self]
    have hL : (List.filter (fun d => decide ¬ 0 < d)
        (List.zipWith (fun prev cur => cur - prev)
          (lastN closes (period + 1)) (lastN closes (period + 1)).tail)).foldl
        (fun s d => s - d) 0 = 0 :=
      foldl_sub_eq_of_zeros _
        (fun d hd => hz d (List.mem_of_mem_filter hd)) 0
    simp only [hL, zero_div, if_pos]
  · intro candles kPeriod dPeriod _ hlen hdeg
    rw [stochasticK, if_neg (by omega)]
    rw [if_pos hdeg]

theorem foldl_max_const (n : ℕ) (x : ℚ) : (List.replicate n x).foldl max x = x := by
  induction n with
  | zero => rfl
  | succ k ih => rw [List.replicate_succ, List.foldl_cons, max_self]; exact ih

theorem foldl_min_const (n : ℕ) (x : ℚ) : (List.replicate n x).foldl min x = x := by
  induction n with
  | zero => rfl
  | succ k ih => rw [List.replicate_succ, List.foldl_cons, min_self]; exact ih

theorem maxQ_replicate (n : ℕ) (x : ℚ) : maxQ (List.replicate (n + 1) x) = x := by
  rw [List.replicate_succ, maxQ]
  exact foldl_max_const n x

theorem minQ_replicate (n : ℕ) (x : ℚ) : minQ (List.replicate (n + 1) x) = x := by
  rw [List.replicate_succ, minQ]
  exact foldl_min_const n x

/-- Flat session used to witness the degenerate stochastic window. -/
def c6wBar : Candle := ⟨"2025-01-02", 10, 10, 10, 10, 100⟩

theorem c6_degenerate_witness :
    rsi (List.replicate 15 (5 : ℚ)) 14 = some 100 ∧
    stochasticK (List.replicate 14 c6wBar) 14 3 = some 50 := by
  constructor
  · exact c6_rsi_stochastic_degenerate.1 (List.replicate 15 (5 : ℚ)) 14 5
      (by norm_num) (by simp) (fun x hx => List.eq_of_mem_replicate hx)
  · refine c6_rsi_stochastic_degenerate.2 (List.replicate 14 c6wBar) 14 3
      (by norm_num) (by simp) ?_
    have h1 : lastN (List.replicate 14 c6wBar) 14 = List.replicate 14 c6wBar := rfl
    rw [h1, List.map_replicate, List.map_replicate,
      show (14 : ℕ) = 13 + 1 from rfl, maxQ_replicate, minQ_replicate]
    rfl

/-! ### Ranking and assembly lemmas (C2, C5) -/

theorem chain'_take {α : Type} {R : α → α → Prop} :
    ∀ (l : List α) (n : ℕ), List.Chain' R l → List.Chain' R (l.take n) := by
  intro l
  induction l with
  | nil => intro n _; simp
  | cons a t ih =>
    intro n h
    cases n with
    | zero => simp
    | succ m =>
      rw [List.take_succ_cons]
      rw [List.chain'_cons'] at h ⊢
      refine ⟨?_, ih m h.2⟩
      intro y hy
      apply h.1
      cases t with
      | nil => simp at hy
      | cons b t' =>
        cases m with
        | zero => simp at hy
        | succ k =>
          rw [List.take_succ_cons] at hy
          simpa using hy

theorem mergeGroups_eq_take_flatten (order : List SetupReason)
    (groups : SetupReason → List StockAnalysis) (n : ℕ) :
    mergeGroups order groups n = ((order.map groups).flatten).take n := by
  induction order generalizing n with
  | nil => simp [mergeGroups]
  | cons r rest ih =>
    rw [mergeGroups, List.map_cons, List.flatten_cons, List.take_append_eq_append_take]
    by_cases hle : n ≤ (groups r).length
    · have hmin : min (groups r).length n = n := min_eq_right hle
      have hz2 : n - (groups r).length = 0 := by omega
      rw [hmin, if_pos (by omega), hz2, List.take_zero, List.append_nil]
    · push_neg at hle
      have hmin : min (groups r).length n = (groups r).length := min_eq_left (by omega)
      rw [hmin, if_neg (by omega), List.take_of_length_le (le_of_lt hle),
        List.take_length, ih]

/-- Within-group ordering relation: picks sharing a `SelectionReason` must
appear with non-increasing scores. -/
def groupOrdered (a b : StockAnalysis) : Prop :=
  a.setupReason = b.setupReason → b.score ≤ a.score

theorem chain'_scoreGE_sortedGroupFor (analyses : List StockAnalysis)
    (r : SetupReason) : List.Chain' scoreGE (sortedGroupFor analyses r) :=
  (List.sorted_insertionSort scoreGE _).chain'

theorem setupReason_of_mem_sortedGroupFor {x : StockAnalysis}
    {analyses : List StockAnalysis} {r : SetupReason}
    (h : x ∈ sortedGroupFor analyses r) : x.setupReason = r := by
  rw [sortedGroupFor, List.mem_insertionSort] at h
  have := (List.mem_filter.mp h).2
  exact of_decide_eq_true this

theorem chain'_flatten_groups (order : List SetupReason)
    (analyses : List StockAnalysis) (hnd : order.Nodup) :
    List.Chain' groupOrdered ((order.map (sortedGroupFor analyses)).flatten) := by
  induction order with
  | nil => simp
  | cons r rest ih =>
    rw [List.map_cons, List.flatten_cons]
    have hnd' := List.nodup_cons.mp hnd
    refine List.Chain'.append ?_ (ih hnd'.2) ?_
    · exact (chain'_scoreGE_sortedGroupFor analyses r).imp
        (fun a b hge => fun _ => hge)
    · intro x hx y hy
      have hxr : x.setupReason = r :=
        setupReason_of_mem_sortedGroupFor (List.mem_of_mem_getLast? hx)
      have hymem : y ∈ (rest.map (sortedGroupFor analyses)).flatten :=
        List.mem_of_mem_head? hy
      rw [List.mem_flatten] at hymem
      obtain ⟨l, hl, hyl⟩ := hymem
      rw [List.mem_map] at hl
      obtain ⟨r', hr', rfl⟩ := hl
      have hyr : y.setupReason = r' := setupReason_of_mem_sortedGroupFor hyl
      intro heq
      exact absurd (hxr ▸ heq ▸ hyr ▸ hr') hnd'.1

theorem priorityOrder_nodup (leo : Bool) : (priorityOrder leo).Nodup := by
  cases leo <;> simp only [priorityOrder, Bool.false_eq_true, if_false, if_true] <;> decide

/-- C5: in the engine's ordered pick list (scores still attached), any two
adjacent picks with the same `SelectionReason` — hence any run of picks from a
single reason group — have non-increasing scores. -/
theorem c5_scores_nonincreasing_within_groups (sq : ℚ → ℚ)
    (parseMs : String → Option ℚ) (nowMs : ℚ) (input : EngineInput)
    (p : ScreenerParams) :
    List.Chain' groupOrdered (enginePicks sq parseMs nowMs input p) := by
  rw [enginePicks, mergeGroups_eq_take_flatten]
  exact chain'_take _ _
    (chain'_flatten_groups _ _ (priorityOrder_nodup p.leo_mode_enabled))

/-! ### Validation lemmas and C2 -/

theorem validateParams_ok_sound (p q : ScreenerParams)
    (h : validateParams p = Except.ok q) :
    q = p ∧ isIsoDate p.as_of_date = true ∧
    p.market_cap_min ≤ p.market_cap_max ∧
    (0 ≤ p.rsi_min ∧ p.rsi_min ≤ 100 ∧ 0 ≤ p.rsi_max ∧ p.rsi_max ≤ 100 ∧
      p.rsi_min ≤ p.rsi_max) ∧
    (0 ≤ p.stoch_k_min ∧ p.stoch_k_min ≤ 100 ∧ 0 ≤ p.stoch_k_max ∧
      p.stoch_k_max ≤ 100 ∧ p.stoch_k_min ≤ p.stoch_k_max) ∧
    (isIntegerQ p.trend_lookback = true ∧ 0 < p.trend_lookback) ∧
    (isIntegerQ p.max_results = true ∧ 0 < p.max_results) ∧
    (isIntegerQ p.atr_lookback = true ∧ 0 < p.atr_lookback) := by
  unfold validateParams at h
  split_ifs at h with h1 h2 h3 h4 h5 h6 h7 h8 h9
  all_goals first
    | exact Except.noConfusion h
    | · injection h with hpq
        simp only [not_not, not_lt] at h1 h2 h3 h4 h5 h6 h9
        exact ⟨hpq.symm, h1, h2, h3, h4, h5, h6, h9⟩

theorem rat_eq_num_of_den_one {q : ℚ} (h : q.den = 1) : (q.num : ℚ) = q := by
  rw [← Rat.num_div_den q, h]
  simp

theorem assertFixedFilters_ok : assertFixedFilters = Except.ok () := by
  unfold assertFixedFilters
  exact if_pos rfl

/-- C2: whenever the engine returns an output, the pick list is capped at
`max_results`; and the picks are exactly the first `max_results` rows of the
concatenation, in priority order (Leo setups first when Leo mode is enabled),
of the score-sorted per-reason groups — per-group truncation at the cap, all
lower-priority groups dropped. -/
theorem c2_result_cap_and_priority_merge (sq : ℚ → ℚ)
    (parseMs : String → Option ℚ) (nowMs : ℚ) (input : EngineInput)
    (out : EngineOutput)
    (h : runEngine sq parseMs nowMs input = Except.ok out) :
    ((out.picks.length : ℚ) ≤ input.params.max_results) ∧
    out.picks = (((priorityOrder input.params.leo_mode_enabled).map
        (sortedGroupFor (analyzeAll sq parseMs nowMs input
          input.params))).flatten.take
        input.params.max_results.num.toNat).map (toPick input.params) := by
  unfold runEngine at h
  rw [assertFixedFilters_ok] at h
  cases hv : validateParams input.params with
  | error e => rw [hv] at h; exact Except.noConfusion h
  | ok p =>
    rw [hv] at h
    obtain ⟨rfl, -, -, -, -, -, hmr, -⟩ := validateParams_ok_sound _ _ hv
    injection h with hout
    have hpicks : out.picks =
        (enginePicks sq parseMs nowMs input input.params).map
          (toPick input.params) := by
      rw [← hout]
    constructor
    · rw [hpicks, List.length_map, enginePicks, mergeGroups_eq_take_flatten]
      have hlen : ((((priorityOrder input.params.leo_mode_enabled).map
          (sortedGroupFor (analyzeAll sq parseMs nowMs input
            input.params))).flatten).take
          input.params.max_results.num.toNat).length ≤
          input.params.max_results.num.toNat := List.length_take_le _ _
      have hden : input.params.max_results.den = 1 := by
        simpa [isIntegerQ] using hmr.1
      have hnum : ((input.params.max_results.num.toNat : ℕ) : ℚ) =
          input.params.max_results := by
        have hpos : 0 < input.params.max_results.num := Rat.num_pos.mpr hmr.2
        calc ((input.params.max_results.num.toNat : ℕ) : ℚ)
            = ((input.params.max_results.num.toNat : ℤ) : ℚ) := by push_cast; ring
          _ = (input.params.max_results.num : ℚ) := by
              rw [Int.toNat_of_nonneg (le_of_lt hpos)]
          _ = input.params.max_results := rat_eq_num_of_den_one hden
      calc ((((priorityOrder input.params.leo_mode_enabled).map
            (sortedGroupFor (analyzeAll sq parseMs nowMs input
              input.params))).flatten.take
            input.params.max_results.num.toNat).length : ℚ)
          ≤ (input.params.max_results.num.toNat : ℚ) := by exact_mod_cast hlen
        _ = input.params.max_results := hnum
    · rw [hpicks, enginePicks, mergeGroups_eq_take_flatten]

def c2wParams : ScreenerParams := DEFAULT_PARAMS "2025-10-31"

def c2wInput : EngineInput := ⟨c2wParams, [], []⟩

def c2wOut : EngineOutput := ⟨"2025-10-31", []⟩

theorem c2_result_cap_witness :
    ((c2wOut.picks.length : ℚ) ≤ c2wInput.params.max_results) ∧
    c2wOut.picks = (((priorityOrder c2wInput.params.leo_mode_enabled).map
        (sortedGroupFor (analyzeAll (fun q => q) (fun _ => none) 0
          c2wInput c2wInput.params))).flatten.take
        c2wInput.params.max_results.num.toNat).map (toPick c2wInput.params) := by
  refine c2_result_cap_and_priority_merge (fun q => q) (fun _ => none) 0
    c2wInput c2wOut ?_
  have hv : validateParams c2wParams = Except.ok c2wParams := by
    rw [validateParams]
    rw [if_neg (by decide)]
    rw [if_neg (by norm_num [c2wParams, DEFAULT_PARAMS])]
    rw [if_neg (by norm_num [c2wParams, DEFAULT_PARAMS])]
    rw [if_neg (by norm_num [c2wParams, DEFAULT_PARAMS])]
    rw [if_neg (by norm_num [c2wParams, DEFAULT_PARAMS, isIntegerQ])]
    rw [if_neg (by norm_num [c2wParams, DEFAULT_PARAMS, isIntegerQ])]
    rw [if_neg (by norm_num [c2wParams, DEFAULT_PARAMS])]
    rw [if_neg (by norm_num [c2wParams, DEFAULT_PARAMS])]
    rw [if_neg (by norm_num [c2wParams, DEFAULT_PARAMS, isIntegerQ])]
  unfold runEngine
  have hp : c2wInput.params = c2wParams := rfl
  rw [assertFixedFilters_ok, hp, hv]
  have hempty : analyzeAll (fun q => q) (fun _ => none) 0
      c2wInput c2wParams = [] := rfl
  have hpicks : enginePicks (fun q => q) (fun _ => none) 0
      c2wInput c2wParams = [] := by
    unfold enginePicks
    rw [mergeGroups_eq_take_flatten, hempty]
    have hsg : ∀ r, sortedGroupFor [] r = [] := fun r => rfl
    simp [hsg]
  show Except.ok ⟨c2wParams.as_of_date,
    (enginePicks (fun q => q) (fun _ => none) 0
      c2wInput c2wParams).map (toPick c2wParams)⟩ = Except.ok c2wOut
  rw [hpicks]
  rfl

/-! ### Classification helpers (C3, C4, C7, C10) -/

theorem classifyLeoReversal_enabled {candles : List Candle} {ind : Indicators}
    {p : ScreenerParams} {r : SetupReason × ℚ}
    (h : classifyLeoReversal candles ind p = some r) :
    p.leo_mode_enabled = true := by
  by_cases hleo : p.leo_mode_enabled = true
  · exact hleo
  · rw [classifyLeoReversal, if_pos (by simpa using hleo)] at h
    exact Option.noConfusion h

theorem classifySetup_of_leo {candles : List Candle} {ind : Indicators}
    {p : ScreenerParams} {r : SetupReason × ℚ}
    (h : classifyLeoReversal candles ind p = some r) :
    classifySetup candles ind p = some r := by
  have hleo := classifyLeoReversal_enabled h
  simp only [classifySetup, hleo, if_true, h]

set_option maxHeartbeats 1000000 in
theorem classifyLeoReversal_not_breakout {candles : List Candle}
    {ind : Indicators} {p : ScreenerParams} {r : SetupReason × ℚ}
    (h : classifyLeoReversal candles ind p = some r) :
    r.1 ≠ SetupReason.Breakout := by
  unfold classifyLeoReversal at h
  simp only at h
  repeat' split at h
  all_goals first
    | exact Option.noConfusion h
    | (cases Option.some.inj h; simp; done)
    | (rename_i heq
       cases Option.some.inj h
       repeat' split at heq
       all_goals first
         | exact Option.noConfusion heq
         | (cases Option.some.inj heq; simp))

theorem classifySetup_not_breakout {candles : List Candle} {ind : Indicators}
    {p : ScreenerParams} {rs : SetupReason × ℚ}
    (hb : isBreakout candles ind = false)
    (h : classifySetup candles ind p = some rs) :
    rs.1 ≠ SetupReason.Breakout := by
  by_cases hleo : p.leo_mode_enabled = true
  · simp only [classifySetup, hleo, if_true] at h
    cases hcl : classifyLeoReversal candles ind p with
    | some r =>
      rw [hcl] at h
      exact (Option.some.inj h) ▸ classifyLeoReversal_not_breakout hcl
    | none =>
      rw [hcl] at h
      simp only [hb, Bool.false_eq_true, if_false] at h
      split_ifs at h <;> first
        | exact Option.noConfusion h
        | (cases Option.some.inj h; simp)
  · simp only [classifySetup, hleo, if_false] at h
    simp only [hb, Bool.false_eq_true, if_false] at h
    split_ifs at h <;> first
      | exact Option.noConfusion h
      | (cases Option.some.inj h; simp)

theorem calcInd_hh20 (sq : ℚ → ℚ) (parseMs : String → Option ℚ) (nowMs : ℚ)
    (candles : List Candle) (p : ScreenerParams) (meta : Option TickerMeta) :
    (calculateIndicators sq parseMs nowMs candles p meta).hh20 =
      some (maxQ ((lastN candles 20).map (·.h))) := rfl

theorem calcInd_ll20 (sq : ℚ → ℚ) (parseMs : String → Option ℚ) (nowMs : ℚ)
    (candles : List Candle) (p : ScreenerParams) (meta : Option TickerMeta) :
    (calculateIndicators sq parseMs nowMs candles p meta).ll20 =
      some (minQ ((lastN candles 20).map (·.l))) := rfl

theorem breakout_pred_false (sq : ℚ → ℚ) (parseMs : String → Option ℚ)
    (nowMs : ℚ) (candles : List Candle) (p : ScreenerParams)
    (meta : Option TickerMeta) (h20 : 20 ≤ candles.length)
    (hwf : ∀ cd ∈ candles, cd.c ≤ cd.h) :
    isBreakout candles (calculateIndicators sq parseMs nowMs candles p meta) =
      false := by
  have hne : candles ≠ [] := by
    intro hnil
    rw [hnil] at h20
    simp at h20
  have hmemN : lastCandleOf candles ∈ lastN candles 20 :=
    lastCandleOf_mem_lastN candles 20 hne (by norm_num)
  have hhh : (lastCandleOf candles).h ≤ maxQ ((lastN candles 20).map (·.h)) :=
    le_maxQ_of_mem (List.mem_map_of_mem _ hmemN)
  have hch : (lastCandleOf candles).c ≤ (lastCandleOf candles).h :=
    hwf _ (lastCandleOf_mem candles hne)
  have hle : (lastCandleOf candles).c ≤ maxQ ((lastN candles 20).map (·.h)) :=
    le_trans hch hhh
  simp only [isBreakout, calcInd_hh20, calcInd_ll20]
  by_cases h0 : maxQ ((lastN candles 20).map (·.h)) = 0 ∨
      minQ ((lastN candles 20).map (·.l)) = 0
  · rw [if_pos h0]
  · rw [if_neg h0]
    exact decide_eq_false (fun hand => absurd hand.1 (not_lt.mpr hle))

/-! ### C10 — the breakout predicate compares against a window that includes
the latest bar -/

/-- C10: for any candle list of at least 20 bars whose candles all satisfy
`close ≤ high`, the breakout predicate is false on the computed indicator
snapshot — `hh20` is the maximum high over the last 20 bars including the
latest bar itself, so `close > hh20` cannot hold — and consequently
`classifySetup` never assigns the `Breakout` reason. -/
theorem c10_breakout_window_includes_last_bar (sq : ℚ → ℚ)
    (parseMs : String → Option ℚ) (nowMs : ℚ) (candles : List Candle)
    (p : ScreenerParams) (meta : Option TickerMeta)
    (h20 : 20 ≤ candles.length) (hwf : ∀ cd ∈ candles, cd.c ≤ cd.h) :
    isBreakout candles (calculateIndicators sq parseMs nowMs candles p meta) =
      false ∧
    ∀ rs, classifySetup candles
        (calculateIndicators sq parseMs nowMs candles p meta) p = some rs →
      rs.1 ≠ SetupReason.Breakout := by
  have hb := breakout_pred_false sq parseMs nowMs candles p meta h20 hwf
  exact ⟨hb, fun rs h => classifySetup_not_breakout hb h⟩

def c10wBar : Candle := ⟨"2025-01-02", 10, 10, 10, 10, 100⟩

theorem c10_breakout_window_witness :
    isBreakout (List.replicate 20 c10wBar)
      (calculateIndicators (fun q => q) (fun _ => none) 0
        (List.replicate 20 c10wBar) c2wParams none) = false ∧
    ∀ rs, classifySetup (List.replicate 20 c10wBar)
        (calculateIndicators (fun q => q) (fun _ => none) 0
          (List.replicate 20 c10wBar) c2wParams none) c2wParams = some rs →
      rs.1 ≠ SetupReason.Breakout :=
  c10_breakout_window_includes_last_bar (fun q => q) (fun _ => none) 0
    (List.replicate 20 c10wBar) c2wParams none (by simp)
    (by
      intro cd hcd
      rw [List.eq_of_mem_replicate hcd]
      norm_num [c10wBar])

/-! ### C3 — the breakout scenario of the spec -/

/-- 259 flat sessions at 40 with steady volume 2,000,000. -/
def c3FlatBar : Candle := ⟨"2025-01-02", 40, 40, 40, 40, 2000000⟩

/-- Final session: close 42 = 5% above the prior 20-bar high of 40, with
volume 4,000,000 (about double the 20-bar average volume), and a well-formed
bar (`high = close`). -/
def c3BreakoutBar : Candle := ⟨"2025-10-31", 40, 42, 40, 42, 4000000⟩

/-- The spec's breakout scenario: 260 daily bars trending flat, then a final
bar whose close is 5% above the prior 20-bar high on twice the average
volume. -/
def c3Candles : List Candle := List.replicate 259 c3FlatBar ++ [c3BreakoutBar]

/-- C3: the spec's breakout scenario does not classify as `Breakout` under
the code. `calculateIndicators` computes `hh20` as the maximum high of the
last 20 bars *including* the final bar, so `close > hh20` fails for the
scenario's well-formed final bar (close 42, high 42): `isBreakout` is false
and `classifySetup` cannot return the `Breakout` reason, for every modelling
of `Math.sqrt` and of the earnings-date clock. -/
theorem c3_breakout_scenario_not_breakout (sq : ℚ → ℚ)
    (parseMs : String → Option ℚ) (nowMs : ℚ) :
    isBreakout c3Candles (calculateIndicators sq parseMs nowMs c3Candles
      (DEFAULT_PARAMS "2025-10-31") none) = false ∧
    ∀ rs, classifySetup c3Candles (calculateIndicators sq parseMs nowMs
        c3Candles (DEFAULT_PARAMS "2025-10-31") none)
        (DEFAULT_PARAMS "2025-10-31") = some rs →
      rs.1 ≠ SetupReason.Breakout := by
  have h20 : 20 ≤ c3Candles.length := by
    rw [c3Candles]
    simp
  have hwf : ∀ cd ∈ c3Candles, cd.c ≤ cd.h := by
    intro cd hcd
    rw [c3Candles, List.mem_append] at hcd
    rcases hcd with hrep | hone
    · rw [List.eq_of_mem_replicate hrep]
      norm_num [c3FlatBar]
    · rw [List.mem_singleton.mp hone]
      norm_num [c3BreakoutBar]
  have hb := breakout_pred_false sq parseMs nowMs c3Candles
    (DEFAULT_PARAMS "2025-10-31") none h20 hwf
  exact ⟨hb, fun rs h => classifySetup_not_breakout hb h⟩

/-! ### C4 — single classification and determinism -/

/-- C4: the classifier is a function of candles, indicators and parameters:
re-evaluating it on identical inputs can only produce the identical reason
and score (at most one `SetupReason` per ticker); and when the Leo predicate
chain matches, its result is what `classifySetup` returns — Leo predicates
are evaluated before the standard predicates. -/
theorem c4_single_classification_deterministic (candles : List Candle)
    (ind : Indicators) (p : ScreenerParams) :
    (∀ r₁ r₂, classifySetup candles ind p = some r₁ →
      classifySetup candles ind p = some r₂ → r₁ = r₂) ∧
    (∀ r, classifyLeoReversal candles ind p = some r →
      classifySetup candles ind p = some r) := by
  constructor
  · intro r₁ r₂ h₁ h₂
    exact Option.some.inj (h₁ ▸ h₂)
  · intro r h
    exact classifySetup_of_leo h

/-! ### C7 — Leo accumulation scenario -/

/-- C7: a ticker reaching Leo classification with Leo mode enabled, a hammer
on the final bar, `%B = 0.05 < 0.2`, `%K = 10` below the oversold threshold
20, a buyer volume shift of strength 60 > 30, and the hammer in the default
allowed-pattern list, is assigned `Reversal_Accumulation`. -/
theorem c7_leo_accumulation_scenario (candles : List Candle)
    (ind : Indicators) (p : ScreenerParams)
    (hleo : p.leo_mode_enabled = true)
    (hthr : p.stoch_oversold_threshold = 20)
    (hpat : p.candlestick_patterns = [.doji, .hammer, .long_lower_shadow])
    (hbb : ind.bbPercentB = some (1/20))
    (hk : ind.stochK = some 10)
    (hcp : ind.candlestickPattern = some .hammer)
    (hvs : ind.volumeShift = some .buyer)
    (hstr : ind.volumeShiftStrength = some 60) :
    (classifySetup candles ind p).map Prod.fst =
      some SetupReason.Reversal_Accumulation := by
  have hlr : ∃ s, classifyLeoReversal candles ind p =
      some (.Reversal_Accumulation, s) := by
    refine ⟨calculateLeoReversalScore ind .bullish (qOr ind.volumeShiftStrength 0), ?_⟩
    unfold classifyLeoReversal
    rw [if_neg (by simp [hleo])]
    simp only [hbb, hk, hcp, hvs, hstr, hthr, hpat, qOr]
    norm_num
  obtain ⟨s, hlr⟩ := hlr
  rw [classifySetup_of_leo hlr]
  rfl

/-- Concrete witness inputs for the Leo accumulation scenario. -/
def c7wInd : Indicators :=
  { bbPercentB := some (1/20)
    stochK := some 10
    candlestickPattern := some .hammer
    volumeShift := some .buyer
    volumeShiftStrength := some 60 }

def c7wParams : ScreenerParams :=
  { DEFAULT_PARAMS "2025-10-31" with leo_mode_enabled := true }

theorem c7_leo_accumulation_witness :
    (classifySetup [] c7wInd c7wParams).map Prod.fst =
      some SetupReason.Reversal_Accumulation :=
  c7_leo_accumulation_scenario [] c7wInd c7wParams rfl rfl rfl rfl rfl rfl rfl rfl

/-! ### C8 — malformed parameters abort the run -/

/-- The malformed-`ScreenerParams` conditions of the claim that are
expressible in this embedding (enum fields are well-typed by construction, so
the runtime enum guards cannot be violated here). -/
def malformedParams (p : ScreenerParams) : Prop :=
  isIsoDate p.as_of_date = false ∨
  p.market_cap_max < p.market_cap_min ∨
  p.rsi_min < 0 ∨ 100 < p.rsi_min ∨ p.rsi_max < 0 ∨ 100 < p.rsi_max ∨
  p.rsi_max < p.rsi_min ∨
  p.stoch_k_min < 0 ∨ 100 < p.stoch_k_min ∨ p.stoch_k_max < 0 ∨
  100 < p.stoch_k_max ∨ p.stoch_k_max < p.stoch_k_min ∨
  p.trend_lookback ≤ 0 ∨ p.atr_lookback ≤ 0 ∨ p.max_results ≤ 0

/-- C8: for malformed parameters the engine aborts with one descriptive
error, the same error whatever the timeseries and metadata hold — no ticker
influences the result and no picks are produced. -/
theorem c8_malformed_params_abort (sq : ℚ → ℚ)
    (parseMs : String → Option ℚ) (nowMs : ℚ) (p : ScreenerParams)
    (hm : malformedParams p) :
    ∃ e : String, ∀ (ts : List (String × List Candle))
      (md : List (String × TickerMeta)),
      runEngine sq parseMs nowMs ⟨p, ts, md⟩ = Except.error e := by
  have hv : ∃ e, validateParams p = Except.error e := by
    cases hval : validateParams p with
    | error e => exact ⟨e, rfl⟩
    | ok q =>
      obtain ⟨-, hiso, hcaps, hrsi, hstoch, htl, hmr, hatr⟩ :=
        validateParams_ok_sound _ _ hval
      exfalso
      obtain ⟨hr1, hr2, hr3, hr4, hr5⟩ := hrsi
      obtain ⟨hs1, hs2, hs3, hs4, hs5⟩ := hstoch
      rcases hm with h | h | h | h | h | h | h | h | h | h | h | h | h | h | h
      · rw [hiso] at h
        exact Bool.noConfusion h
      all_goals linarith [htl.2, hatr.2, hmr.2]
  obtain ⟨e, he⟩ := hv
  refine ⟨e, fun ts md => ?_⟩
  unfold runEngine
  rw [assertFixedFilters_ok]
  rw [show (⟨p, ts, md⟩ : EngineInput).params = p from rfl, he]

def c8wParams : ScreenerParams :=
  { DEFAULT_PARAMS "2025-10-31" with max_results := 0 }

theorem c8_malformed_params_witness :
    ∃ e : String, ∀ (ts : List (String × List Candle))
      (md : List (String × TickerMeta)),
      runEngine (fun q => q) (fun _ => none) 0
        ⟨c8wParams, ts, md⟩ = Except.error e :=
  c8_malformed_params_abort (fun q => q) (fun _ => none) 0
    c8wParams
    (by norm_num [malformedParams, c8wParams, DEFAULT_PARAMS])

/-! ### C9 — price-target list -/

/-- The claim's description of the swing-high targets, read as written: of
the swing highs strictly above the current price, the three most recent
(filter first, then take the last three). The FVG, fixed-percentage, sort and
cap parts follow the claim unchanged. -/
def claimPriceTargets (candles : List Candle) (ind : Indicators) :
    List PriceTarget :=
  if candles.length < 20 then []
  else
    let currentPrice := (lastCandleOf candles).c
    let fvgTargets : List PriceTarget :=
      (ind.fvgZones.getD []).filterMap (fun fvg =>
        if fvg.isFilled then none
        else if fvg.bull ∧ fvg.midpoint > currentPrice then
          some ⟨.fvg, fvg.midpoint, "FVG 50% retracement", 80⟩
        else if (¬ fvg.bull) ∧ fvg.midpoint < currentPrice then
          some ⟨.fvg, fvg.midpoint, "FVG 50% retracement", 80⟩
        else none)
    let swingTargets : List PriceTarget :=
      (lastN ((ind.swingHighs.getD []).filter
          (fun high => decide (high.price > currentPrice))) 3).map (fun high =>
        ⟨.swing, high.price,
          "Previous swing high (" ++ high.date ++ ")", 70⟩)
    let pctTarget : PriceTarget :=
      ⟨.percentage, currentPrice * (11/10), "Maximum realistic target (~10%)", 50⟩
    let targets := fvgTargets ++ swingTargets ++ [pctTarget]
    (List.insertionSort priceLE targets).take 5

/-- The amended claim's description: of the *three most recent* swing highs,
those strictly above the current price (take the last three first, then
filter); everything else as in the claim. -/
def amendedPriceTargets (candles : List Candle) (ind : Indicators) :
    List PriceTarget :=
  if candles.length < 20 then []
  else
    let currentPrice := (lastCandleOf candles).c
    let fvgTargets : List PriceTarget :=
      (ind.fvgZones.getD []).filterMap (fun fvg =>
        if fvg.isFilled then none
        else if fvg.bull ∧ fvg.midpoint > currentPrice then
          some ⟨.fvg, fvg.midpoint, "FVG 50% retracement", 80⟩
        else if (¬ fvg.bull) ∧ fvg.midpoint < currentPrice then
          some ⟨.fvg, fvg.midpoint, "FVG 50% retracement", 80⟩
        else none)
    let swingTargets : List PriceTarget :=
      (lastN (ind.swingHighs.getD []) 3).filterMap (fun high =>
        if high.price > currentPrice then
          some ⟨.swing, high.price,
            "Previous swing high (" ++ high.date ++ ")", 70⟩
        else none)
    let pctTarget : PriceTarget :=
      ⟨.percentage, currentPrice * (11/10), "Maximum realistic target (~10%)", 50⟩
    let targets := fvgTargets ++ swingTargets ++ [pctTarget]
    (List.insertionSort priceLE targets).take 5

/-- A bar at price 50; 20 of these make the counterexample's history. -/
def c9Bar : Candle := ⟨"2025-01-02", 50, 50, 50, 50, 1000⟩

def c9cexCandles : List Candle := List.replicate 20 c9Bar

/-- Four detected swing highs: the oldest at 100 (above the current price of
50), the three most recent at 5, 6, 7 (all below it). -/
def c9cexInd : Indicators :=
  { fvgZones := some []
    swingHighs := some [⟨"d1", 100, true, 3⟩, ⟨"d2", 5, true, 3⟩,
      ⟨"d3", 6, true, 3⟩, ⟨"d4", 7, true, 3⟩] }

theorem c9_lastCandle_cex : lastCandleOf c9cexCandles = c9Bar := by
  rw [c9cexCandles, lastCandleOf, show (20 : ℕ) = 19 + 1 from rfl]
  exact getLastD_replicate 19 c9Bar dCandle

/-- C9 counterexample: the code takes the last three detected swing highs and
then keeps those above the current price; the claim as stated selects the
three most recent among the swing highs above the current price. On this
input the code yields only the +10% target while the claim's reading also
yields the swing high at 100. -/
theorem c9_price_targets_counterexample :
    calculatePriceTargetsFromIndicators c9cexCandles c9cexInd ≠
      claimPriceTargets c9cexCandles c9cexInd := by
  have hL : calculatePriceTargetsFromIndicators c9cexCandles c9cexInd =
      [⟨.percentage, 55, "Maximum realistic target (~10%)", 50⟩] := by
    unfold calculatePriceTargetsFromIndicators
    rw [if_neg (by simp [c9cexCandles])]
    rw [c9_lastCandle_cex]
    norm_num [c9cexInd, c9Bar, lastN, List.insertionSort, List.orderedInsert]
  have hR : claimPriceTargets c9cexCandles c9cexInd =
      [⟨.percentage, 55, "Maximum realistic target (~10%)", 50⟩,
       ⟨.swing, 100, "Previous swing high (" ++ "d1" ++ ")", 70⟩] := by
    unfold claimPriceTargets
    rw [if_neg (by simp [c9cexCandles])]
    rw [c9_lastCandle_cex]
    norm_num [c9cexInd, c9Bar, lastN, List.insertionSort, List.orderedInsert,
      priceLE]
  rw [hL, hR]
  simp

/-- C9 (amended): the computed price-target list is exactly the amended
description — unfilled bullish FVG midpoints above / bearish midpoints below
the current price at confidence 80, those of the three most recent swing
highs that lie above the current price at confidence 70, and the +10% target
at confidence 50 — stably sorted ascending by price and capped at five
entries. -/
theorem c9_price_targets_amended (candles : List Candle) (ind : Indicators) :
    calculatePriceTargetsFromIndicators candles ind =
      amendedPriceTargets candles ind ∧
    (calculatePriceTargetsFromIndicators candles ind).length ≤ 5 ∧
    List.Sorted priceLE (calculatePriceTargetsFromIndicators candles ind) := by
  refine ⟨rfl, ?_, ?_⟩
  · unfold calculatePriceTargetsFromIndicators
    by_cases h : candles.length < 20
    · rw [if_pos h]
      simp
    · rw [if_neg h]
      exact List.length_take_le _ _
  · unfold calculatePriceTargetsFromIndicators
    by_cases h : candles.length < 20
    · rw [if_pos h]
      exact List.sorted_nil
    · rw [if_neg h]
      exact (List.sorted_insertionSort priceLE _).sublist (List.take_sublist _ _)

end Screener
